import Mathlib

/-!
vault-plugin-secrets-grafanacloud: role store, configuration store, client cache,
issuance, renewal, revocation and the retry policy of the remote client.

A shallow embedding of the Go package `secretsengine` (and of the parts of
package `client` it calls).  Every handler is a pure function of the state it
reads (host storage, cached client) and returns the Go result pair together
with the state it leaves behind.

Conventions
* a Go `error` is represented by its message (`GoError`);
* a handler result `(resp, err)` is `Result.ok resp` when `err == nil` (with
  `resp = none` for a nil response), `Result.error msg` otherwise, and
  `Result.panic` when the Go code panics (nil dereference, failed type
  assertion);
* `time.Duration` is an `int64` number of nanoseconds: an `Int` with the
  product wrapped to 64 bits;
* `map[string]interface{}` is an association list read with `List.lookup`;
* the host storage holds JSON documents; an entry is represented by the Go
  value it decodes to, and the storage can be made to fail.
-/

namespace secretsengine

/-! ## Go runtime and host SDK values -/

/-- A Go error value, represented by its message. -/
abbrev GoError := String

/-- Outcome of a Go call returning `(value, error)`, panics included. -/
inductive Result (α : Type) where
  | ok (value : α)
  | error (err : GoError)
  | panic (msg : String)
deriving DecidableEq, Repr

deriving instance DecidableEq for Except

/-- Wrap an integer to the two's-complement `int64` range. -/
def wrapInt64 (x : Int) : Int := (x + 9223372036854775808) % 18446744073709551616 - 9223372036854775808

/-- Go `time.Duration`: nanoseconds as `int64`. -/
abbrev Duration := Int

/-- Go `time.Second`. -/
def Second : Duration := 1000000000

/-- Go `time.Duration(n) * time.Second` for an `int` n, with `int64` overflow. -/
def secondsToDuration (n : Int) : Duration := wrapInt64 (n * Second)

/-- Go `Duration.Seconds`: `float64(d / Second) + float64(d % Second) / 1e9`, with exact
rationals standing for `float64` (exact for whole seconds, all below 2^53). -/
def Duration.Seconds (d : Duration) : ℚ :=
  ((Int.tdiv d Second : Int) : ℚ) + ((Int.tmod d Second : Int) : ℚ) / 1000000000

/-- A dynamically typed Go value (`interface{}`) as found in response data and lease metadata. -/
inductive Value where
  | str (s : String)
  | float (q : ℚ)
  | int (n : Int)
  | nil
deriving DecidableEq, Repr

/-- Host SDK `logical.Secret`: lease options and lease-internal metadata. -/
structure Secret where
  TTL : Duration
  MaxTTL : Duration
  Renewable : Bool
  InternalData : List (String × Value)
deriving DecidableEq, Repr

/-- Host SDK `logical.Response`. -/
structure Response where
  Data : List (String × Value)
  Secret : Option Secret
deriving DecidableEq, Repr

/-- Host SDK `logical.ErrorResponse(text)`: a response whose only datum is `error`. -/
def ErrorResponse (text : String) : Response :=
  { Data := [("error", Value.str text)], Secret := none }

/-- Host SDK `Response.IsError` (for responses without a `data` element). -/
def Response.IsError (r : Response) : Bool :=
  r.Data.length == 1 && (r.Data.lookup "error").isSome

/-- Host SDK `logical.Operation`, the operations the paths register. -/
inductive Operation where
  | CreateOperation
  | ReadOperation
  | UpdateOperation
  | DeleteOperation
  | ListOperation
deriving DecidableEq, Repr

/-! ## path_roles.go -/

/-- Go struct `grafanaCloudRoleEntry`. -/
structure grafanaCloudRoleEntry where
  GrafanaCloudRole : String
  TTL : Duration
  MaxTTL : Duration
deriving DecidableEq, Repr

/-- Go struct `grafanaCloudConfig` (path_config.go). -/
structure grafanaCloudConfig where
  Organisation : String
  Key : String
  URL : String
  User : String
deriving DecidableEq, Repr

/-- The host storage (`logical.Storage`): the entries under `roles/<name>` (keyed by name),
the entry at `config`, and the error, if any, with which Get, Put or Delete fail. -/
structure Storage where
  roles : List (String × grafanaCloudRoleEntry)
  config : Option grafanaCloudConfig
  getErr : Option GoError
  putErr : Option GoError
  deleteErr : Option GoError
deriving DecidableEq, Repr

/-- Empty, working storage. -/
def Storage.empty : Storage :=
  { roles := [], config := none, getErr := none, putErr := none, deleteErr := none }

/-- Go map `grafanaCloudValidRoles`. -/
def grafanaCloudValidRoles : List (String × Bool) :=
  [("Viewer", true), ("Admin", true), ("Editor", true),
   ("MetricsPublisher", true), ("PluginPublisher", true)]

/-- Go method `toResponseData`. -/
def grafanaCloudRoleEntry.toResponseData (r : grafanaCloudRoleEntry) : List (String × Value) :=
  [("gc_role", Value.str r.GrafanaCloudRole),
   ("ttl", Value.float (Duration.Seconds r.TTL)),
   ("max_ttl", Value.float (Duration.Seconds r.MaxTTL))]

/-- Field data of a request on `roles/<name>` as the handler reads it with `GetOk`:
`none` when the field was not supplied; durations are whole seconds (`TypeDurationSecond`). -/
structure RoleFieldData where
  name : Option String
  gc_role : Option String
  ttl : Option Int
  max_ttl : Option Int
deriving DecidableEq, Repr

/-- Go function `getRole`. The entry under `roles/<name>` was encoded from a
`grafanaCloudRoleEntry` by `setRole`, the only writer, so decoding it succeeds. -/
def getRole (s : Storage) (name : String) : Except GoError (Option grafanaCloudRoleEntry) :=
  if name = "" then .error "missing role name"
  else
    match s.getErr with
    | some err => .error err
    | none => .ok (s.roles.lookup name)

/-- Go function `pathRolesRead`; `d.Get("name")` is the empty string when the field is absent. -/
def pathRolesRead (s : Storage) (d : RoleFieldData) : Result (Option Response) :=
  match getRole s (d.name.getD "") with
  | .error err => .error err
  | .ok none => .ok none
  | .ok (some entry) => .ok (some { Data := entry.toResponseData, Secret := none })

/-- Go function `setRole`: encode the entry (encoding this struct cannot fail) and Put it
under `roles/<name>`, replacing what was there. -/
def setRole (s : Storage) (name : String) (roleEntry : grafanaCloudRoleEntry) :
    Except GoError Storage :=
  match s.putErr with
  | some err => .error err
  | none => .ok { s with roles := (name, roleEntry) :: s.roles.filter (fun kv => kv.1 != name) }

/-- Lines 191-203 of `pathRolesWrite`: merge the supplied ttl and max_ttl into the entry
(on create an absent field takes the schema default, zero). -/
def mergeTTLs (createOperation : Bool) (d : RoleFieldData) (roleEntry : grafanaCloudRoleEntry) :
    grafanaCloudRoleEntry :=
  let roleEntry1 : grafanaCloudRoleEntry :=
    match d.ttl with
    | some ttlRaw => { roleEntry with TTL := secondsToDuration ttlRaw }
    | none =>
      if createOperation then { roleEntry with TTL := secondsToDuration 0 } else roleEntry
  match d.max_ttl with
  | some maxTTLRaw => { roleEntry1 with MaxTTL := secondsToDuration maxTTLRaw }
  | none =>
    if createOperation then { roleEntry1 with MaxTTL := secondsToDuration 0 } else roleEntry1

/-- Lines 191-213 of `pathRolesWrite`: merge ttl and max_ttl into the entry, check the
cross-field bound, persist. -/
def pathRolesWriteTTL (s : Storage) (createOperation : Bool) (name : String) (d : RoleFieldData)
    (roleEntry : grafanaCloudRoleEntry) : Result (Option Response) × Storage :=
  let roleEntry2 := mergeTTLs createOperation d roleEntry
  if roleEntry2.MaxTTL ≠ 0 ∧ roleEntry2.TTL > roleEntry2.MaxTTL then
    (.ok (some (ErrorResponse "ttl cannot be greater than max_ttl")), s)
  else
    match setRole s name roleEntry2 with
    | .error err => (.error err, s)
    | .ok s1 => (.ok none, s1)

/-- Go function `pathRolesWrite` (create and update). -/
def pathRolesWrite (s : Storage) (op : Operation) (d : RoleFieldData) :
    Result (Option Response) × Storage :=
  match d.name with
  | none => (.ok (some (ErrorResponse "missing role name")), s)
  | some name =>
    match getRole s name with
    | .error err => (.error err, s)
    | .ok found =>
      let roleEntry : grafanaCloudRoleEntry :=
        found.getD { GrafanaCloudRole := "", TTL := 0, MaxTTL := 0 }
      let createOperation : Bool := op == Operation.CreateOperation
      match d.gc_role with
      | some gcRole =>
        if (grafanaCloudValidRoles.lookup gcRole).isSome then
          pathRolesWriteTTL s createOperation name d { roleEntry with GrafanaCloudRole := gcRole }
        else
          (.ok (some (ErrorResponse ("provided gc_role " ++ gcRole ++ " is not valid"))), s)
      | none =>
        if createOperation then (.error "missing gc_role value", s)
        else pathRolesWriteTTL s createOperation name d roleEntry

/-- Go function `pathRolesDelete`. -/
def pathRolesDelete (s : Storage) (d : RoleFieldData) : Result (Option Response) × Storage :=
  match s.deleteErr with
  | some err => (.error ("error deleting grafanaCloud role: " ++ err), s)
  | none => (.ok none, { s with roles := s.roles.filter (fun kv => kv.1 != d.name.getD "") })

/-! ## path_config.go (the reader; the handlers follow below) -/

/-- Go function `getConfig`: the entry at `config`, absent when nothing is persisted. -/
def getConfig (s : Storage) : Except GoError (Option grafanaCloudConfig) :=
  match s.getErr with
  | some err => .error err
  | none => .ok s.config

/-! ## client/client.go -/

/-- Go struct `CreateAPIKeyInput`. -/
structure CreateAPIKeyInput where
  Name : String
  Role : String
  Organisation : String
deriving DecidableEq, Repr

/-- Go struct `APIKey`. -/
structure APIKey where
  ID : Int
  Name : String
  Role : String
  Token : String
  Expiration : String
deriving DecidableEq, Repr

/-- Go struct `Client` with the settings `NewClient` gives the resty client (the key
name affix for temporary keys, unused here, is left out). -/
structure Client where
  BaseURL : String
  AuthToken : String
  Timeout : Duration
  RetryWaitTime : Duration
  RetryCount : Nat
  TempKeyExpires : Duration
deriving DecidableEq, Repr

/-- Go `strings.HasSuffix`. -/
def HasSuffix (s suffix : String) : Bool := suffix.data.isSuffixOf s.data

/-- Go function `NewClient` (no options): a trailing slash is ensured on the base URL. -/
def NewClient (baseURL apiKey : String) : Except GoError Client :=
  let url := if HasSuffix baseURL "/" then baseURL else baseURL ++ "/"
  .ok { BaseURL := url, AuthToken := apiKey, Timeout := 10 * Second,
        RetryWaitTime := 10 * Second, RetryCount := 6, TempKeyExpires := 60 * Second }

/-- A request handed to resty: method, URL relative to the base URL, and JSON body. -/
structure Request where
  Method : String
  BaseURL : String
  AuthToken : String
  URL : String
  Body : Option CreateAPIKeyInput
deriving DecidableEq, Repr

/-- What resty hands back for a request: status code, body, and the object decoded
into the value given to `SetResult`. -/
structure RestyResponse where
  StatusCode : Nat
  Body : String
  Result : APIKey
deriving DecidableEq, Repr

/-- The remote service as seen through resty: the `(resp, err)` a request ends with. -/
abbrev Remote := Request → Except GoError RestyResponse

/-- Resty `Response.IsError`: status code above 399. -/
def RestyResponse.IsError (r : RestyResponse) : Bool := decide (r.StatusCode > 399)

/-- Go function `HttpError`. -/
def HttpError (message : String) (resp : RestyResponse) : GoError :=
  message ++ ". Status code " ++ toString resp.StatusCode ++ ", response: " ++ resp.Body

/-- Go function `HandleError` applied to the `(resp, err)` of a request; `none` is a nil error. -/
def HandleError (r : Except GoError RestyResponse) (msg : String) : Option GoError :=
  match r with
  | .error err => some (msg ++ ": " ++ err)
  | .ok resp => if resp.IsError then some (HttpError msg resp) else none

/-- Go method `Client.CreateAPIKey`: the result and the request it sent. -/
def Client.CreateAPIKey (c : Client) (remote : Remote) (r : CreateAPIKeyInput) :
    Except GoError APIKey × List Request :=
  let url := "orgs/" ++ r.Organisation ++ "/api-keys"
  let req : Request :=
    { Method := "POST", BaseURL := c.BaseURL, AuthToken := c.AuthToken, URL := url, Body := some r }
  let resp := remote req
  match HandleError resp "failed to create Grafana Cloud Portal API key" with
  | some err => (.error err, [req])
  | none =>
    match resp with
    | .ok rr => (.ok rr.Result, [req])
    | .error err => (.error err, [req])

/-! ## backend.go -/

/-- Go struct `grafanaCloudBackend`: the cached client (the lock is not modelled:
calls are sequential). -/
structure grafanaCloudBackend where
  client : Option Client
deriving DecidableEq, Repr

/-- Go constant `grafanaCloudKeyType`. -/
def grafanaCloudKeyType : String := "GrafanaCloudKey"

/-- Go method `getClient`: the cached client, or one built from the persisted
configuration (the zero configuration when none is persisted) and cached. -/
def grafanaCloudBackend.getClient (b : grafanaCloudBackend) (s : Storage) :
    Except GoError Client × grafanaCloudBackend :=
  match b.client with
  | some c => (.ok c, b)
  | none =>
    match getConfig s with
    | .error err => (.error err, b)
    | .ok found =>
      let config : grafanaCloudConfig :=
        found.getD { Organisation := "", Key := "", URL := "", User := "" }
      match NewClient config.URL config.Key with
      | .error err => (.error err, { b with client := none })
      | .ok c => (.ok c, { b with client := some c })

/-! ## grafanacloud_key.go -/

/-- Go struct `GrafanaCloudKey`. -/
structure GrafanaCloudKey where
  Name : String
  Token : String
  User : String
deriving DecidableEq, Repr

/-- Host SDK `framework.Secret`: the fields `Secret.Response` reads. -/
structure FrameworkSecret where
  SecretType : String
  DefaultDuration : Duration
  HasRenew : Bool
deriving DecidableEq, Repr

/-- Go method `grafanaCloudKey`: the secret type of the backend; no default duration is set. -/
def grafanaCloudKey : FrameworkSecret :=
  { SecretType := grafanaCloudKeyType, DefaultDuration := 0, HasRenew := true }

/-- Host SDK `Secret.Response(data, internal)`: the internal data is copied and
`secret_type` is set in the copy. -/
def FrameworkSecret.Response (fs : FrameworkSecret) (data internal : List (String × Value)) :
    Response :=
  { Data := data,
    Secret := some { TTL := fs.DefaultDuration, MaxTTL := 0, Renewable := fs.HasRenew,
                     InternalData := ("secret_type", Value.str fs.SecretType) ::
                       internal.filter (fun kv => kv.1 != "secret_type") } }

/-- Go assignment `resp.Secret.TTL = ttl`. -/
def Response.setTTL (r : Response) (ttl : Duration) : Response :=
  { r with Secret := r.Secret.map (fun sec => { sec with TTL := ttl }) }

/-- Go assignment `resp.Secret.MaxTTL = maxTTL`. -/
def Response.setMaxTTL (r : Response) (maxTTL : Duration) : Response :=
  { r with Secret := r.Secret.map (fun sec => { sec with MaxTTL := maxTTL }) }

/-- Go method `keyRenew`; the argument is `req.Secret`, the lease as the host stored it. -/
def keyRenew (s : Storage) (secret : Secret) : Result (Option Response) :=
  match secret.InternalData.lookup "role" with
  | none => .error "secret is missing role internal data"
  | some (Value.str role) =>
    match getRole s role with
    | .error err => .error ("error retrieving role: " ++ err)
    | .ok none => .error "error retrieving role: role is nil"
    | .ok (some roleEntry) =>
      let resp : Response := { Data := [], Secret := some secret }
      let resp1 := if roleEntry.TTL > 0 then resp.setTTL roleEntry.TTL else resp
      let resp2 := if roleEntry.MaxTTL > 0 then resp1.setMaxTTL roleEntry.MaxTTL else resp1
      .ok (some resp2)
  | some _ => .panic "interface conversion: interface {} is not string"

/-- google/uuid `UUID`: sixteen bytes. -/
abbrev UUID := Fin 16 → Fin 256

/-- Go `encoding/hex` table "0123456789abcdef". -/
def hextable : List Char :=
  ['0', '1', '2', '3', '4', '5', '6', '7', '8', '9', 'a', 'b', 'c', 'd', 'e', 'f']

/-- Go `encoding/hex` table lookup for one nibble. -/
def hexDigit (n : Fin 16) : Char := hextable.getD n.val '0'

/-- Go `hex.Encode`: for each byte the digit of the high nibble, then of the low nibble. -/
def hexEncode : List (Fin 256) → List Char
  | [] => []
  | v :: rest =>
    hexDigit ⟨v.val / 16, by omega⟩ :: hexDigit ⟨v.val % 16, by omega⟩ :: hexEncode rest

/-- google/uuid `UUID.String`: the canonical form xxxxxxxx-xxxx-xxxx-xxxx-xxxxxxxxxxxx. -/
def UUID.String (u : UUID) : String :=
  String.mk (hexEncode [u 0, u 1, u 2, u 3] ++ '-' ::
    (hexEncode [u 4, u 5] ++ '-' ::
      (hexEncode [u 6, u 7] ++ '-' ::
        (hexEncode [u 8, u 9] ++ '-' ::
          hexEncode [u 10, u 11, u 12, u 13, u 14, u 15]))))

/-- The name `createKey` formats with `fmt.Sprintf("%s_%s", roleName, suffix)`. -/
def tokenName (roleName suffix : String) : String := roleName ++ "_" ++ suffix

/-- Go function `createKey` (package level); `u` is the value `uuid.New()` draws. -/
def createKey (c : Client) (remote : Remote) (u : UUID)
    (organisation roleName user grafanaCloudRole : String) :
    Except GoError GrafanaCloudKey × List Request :=
  let suffix := u.String
  let name := tokenName roleName suffix
  match c.CreateAPIKey remote { Name := name, Role := grafanaCloudRole,
                                Organisation := organisation } with
  | (.error err, calls) => (.error ("error creating Grafana Cloud key: " ++ err), calls)
  | (.ok key, calls) => (.ok { Name := key.Name, Token := key.Token, User := user }, calls)

/-! ## path_credentials.go -/

/-- Field data of a request on `creds/<name>`: the value `d.Get("name")` returns (the
field is a `TypeLowerCaseString`, so the host has lower-cased the supplied name). -/
structure CredsFieldData where
  name : String
deriving DecidableEq, Repr

/-- Go method `grafanaCloudBackend.createKey`: result, backend left behind, requests sent.
`getConfig` returns a nil configuration with a nil error when nothing is persisted, and the
arguments `config.Organisation`, `config.User` are evaluated before the call. The package
level `createKey` never returns a nil key with a nil error. -/
def grafanaCloudBackend.createKey (b : grafanaCloudBackend) (s : Storage) (remote : Remote)
    (u : UUID) (roleName : String) (roleEntry : grafanaCloudRoleEntry) :
    Result GrafanaCloudKey × grafanaCloudBackend × List Request :=
  match b.getClient s with
  | (.error err, b1) => (.error err, b1, [])
  | (.ok client, b1) =>
    match getConfig s with
    | .error err => (.error ("error reading secrets engine configuration: " ++ err), b1, [])
    | .ok none => (.panic "invalid memory address or nil pointer dereference", b1, [])
    | .ok (some config) =>
      match secretsengine.createKey client remote u config.Organisation roleName config.User
              roleEntry.GrafanaCloudRole with
      | (.error err, calls) => (.error ("error creating Grafana Cloud token: " ++ err), b1, calls)
      | (.ok token, calls) => (.ok token, b1, calls)

/-- Go method `createUserCreds`. -/
def grafanaCloudBackend.createUserCreds (b : grafanaCloudBackend) (s : Storage)
    (remote : Remote) (u : UUID) (roleName : String) (role : grafanaCloudRoleEntry) :
    Result (Option Response) × grafanaCloudBackend × List Request :=
  match b.createKey s remote u roleName role with
  | (.error err, b1, calls) => (.error err, b1, calls)
  | (.panic msg, b1, calls) => (.panic msg, b1, calls)
  | (.ok key, b1, calls) =>
    let responseData : List (String × Value) :=
      if key.User ≠ "" then [("token", Value.str key.Token), ("user", Value.str key.User)]
      else [("token", Value.str key.Token)]
    let resp := grafanaCloudKey.Response responseData [("name", Value.str key.Name)]
    let resp1 := if role.TTL > 0 then resp.setTTL role.TTL else resp
    let resp2 := if role.MaxTTL > 0 then resp1.setMaxTTL role.MaxTTL else resp1
    (.ok (some resp2), b1, calls)

/-- Go method `pathCredentialsRead`. -/
def grafanaCloudBackend.pathCredentialsRead (b : grafanaCloudBackend) (s : Storage)
    (remote : Remote) (u : UUID) (d : CredsFieldData) :
    Result (Option Response) × grafanaCloudBackend × List Request :=
  let roleName := d.name
  match getRole s roleName with
  | .error err => (.error ("error retrieving role: " ++ err), b, [])
  | .ok none => (.error "error retrieving role: role is nil", b, [])
  | .ok (some roleEntry) => b.createUserCreds s remote u roleName roleEntry

/-! ## net/url, as far as `pathConfigWrite` depends on it -/

/-- Go `net/url` `URL`: the scheme is all the configuration check reads. -/
structure URL where
  Scheme : String
deriving DecidableEq, Repr

/-- Go `URL.IsAbs`: the scheme is not empty. -/
def URL.IsAbs (u : URL) : Bool := u.Scheme != ""

/-- Go `net/url` `stringContainsCTLByte`: a byte below 0x20 or 0x7f. -/
def stringContainsCTLByte (s : String) : Bool :=
  s.data.any (fun c => decide (c.toNat < 32) || decide (c.toNat = 127))

/-- The loop of Go `net/url` `getScheme`: `seen` is the part of the URL already read,
`rest` the part still to read. -/
def getSchemeLoop (rawURL : String) (seen : List Char) :
    List Char → Except GoError (String × String)
  | [] => .ok ("", rawURL)
  | c :: rest =>
    if c.isAlpha then getSchemeLoop rawURL (seen ++ [c]) rest
    else if c.isDigit || c == '+' || c == '-' || c == '.' then
      if seen.isEmpty then .ok ("", rawURL) else getSchemeLoop rawURL (seen ++ [c]) rest
    else if c == ':' then
      if seen.isEmpty then .error "missing protocol scheme"
      else .ok (String.mk seen, String.mk rest)
    else .ok ("", rawURL)

/-- Go `net/url` `getScheme`: the scheme and what follows the colon, or no scheme. -/
def getScheme (rawURL : String) : Except GoError (String × String) :=
  getSchemeLoop rawURL [] rawURL.data

/-- Go `url.ParseRequestURI`, up to the scheme. `parseRest scheme rest` stands for the
parsing of the authority and path of a `rest` that starts with a slash: the error it ends
with, if any. -/
def ParseRequestURI (parseRest : String → String → Option GoError) (rawURL : String) :
    Except GoError URL :=
  if stringContainsCTLByte rawURL then .error "net/url: invalid control character in URL"
  else if rawURL = "" then .error "empty url"
  else if rawURL = "*" then .ok { Scheme := "" }
  else
    match getScheme rawURL with
    | .error err => .error err
    | .ok (scheme, afterScheme) =>
      let lower := String.mk (scheme.data.map Char.toLower)
      let rest := String.mk (afterScheme.data.takeWhile (fun c => c != '?'))
      if rest.data.head? = some '/' then
        match parseRest lower rest with
        | some err => .error err
        | none => .ok { Scheme := lower }
      else if lower != "" then .ok { Scheme := lower }
      else .error "invalid URI for request"

/-! ## path_config.go -/

/-- Field data of a request on `config` as the handler reads it with `GetOk`. -/
structure ConfigFieldData where
  organisation : Option String
  key : Option String
  url : Option String
  user : Option String
deriving DecidableEq, Repr

/-- Go method `reset`: the cached client is dropped. -/
def grafanaCloudBackend.reset (b : grafanaCloudBackend) : grafanaCloudBackend :=
  { b with client := none }

/-- Go method `invalidate`. -/
def grafanaCloudBackend.invalidate (b : grafanaCloudBackend) (key : String) :
    grafanaCloudBackend :=
  if key = "config" then b.reset else b

/-- Go method `pathConfigRead`: the absent configuration is dereferenced. -/
def pathConfigRead (s : Storage) : Result (Option Response) :=
  match getConfig s with
  | .error err => .error err
  | .ok none => .panic "invalid memory address or nil pointer dereference"
  | .ok (some config) =>
    .ok (some { Data := [("organisation", Value.str config.Organisation),
                         ("key", Value.str config.Key),
                         ("url", Value.str config.URL),
                         ("user", Value.str config.User)],
                Secret := none })

/-- Lines 176-191 of `pathConfigWrite`: merge the user, Put the entry, reset the cache. -/
def grafanaCloudBackend.pathConfigWriteUser (b : grafanaCloudBackend) (s : Storage)
    (data : ConfigFieldData) (config : grafanaCloudConfig) :
    Result (Option Response) × grafanaCloudBackend × Storage :=
  let config1 : grafanaCloudConfig :=
    match data.user with
    | some user => { config with User := user }
    | none => config
  match s.putErr with
  | some err => (.error err, b, s)
  | none => (.ok none, b.reset, { s with config := some config1 })

/-- Go method `pathConfigWrite` (create and update). -/
def grafanaCloudBackend.pathConfigWrite (b : grafanaCloudBackend)
    (parseRest : String → String → Option GoError) (s : Storage) (op : Operation)
    (data : ConfigFieldData) : Result (Option Response) × grafanaCloudBackend × Storage :=
  match getConfig s with
  | .error err => (.error err, b, s)
  | .ok found =>
    let createOperation : Bool := op == Operation.CreateOperation
    if found.isNone && !createOperation then
      (.error "config not found during update operation", b, s)
    else
      let config : grafanaCloudConfig :=
        found.getD { Organisation := "", Key := "", URL := "", User := "" }
      let config1 : grafanaCloudConfig :=
        match data.organisation with
        | some organisation => { config with Organisation := organisation }
        | none => config
      if config1.Organisation = "" ∧ createOperation = true then
        (.error "missing organisation in configuration", b, s)
      else
        let config2 : grafanaCloudConfig :=
          match data.key with
          | some key => { config1 with Key := key }
          | none => config1
        if config2.Key = "" ∧ createOperation = true then
          (.error "missing key in configuration", b, s)
        else
          match data.url with
          | some configuredUrl =>
            match ParseRequestURI parseRest configuredUrl with
            | .error _ => (.error "invalid url in configuration", b, s)
            | .ok u =>
              if !u.IsAbs then (.error "invalid url in configuration", b, s)
              else b.pathConfigWriteUser s data { config2 with URL := configuredUrl }
          | none =>
            if createOperation then (.error "missing url in configuration", b, s)
            else b.pathConfigWriteUser s data config2

/-- Go method `pathConfigDelete`. -/
def grafanaCloudBackend.pathConfigDelete (b : grafanaCloudBackend) (s : Storage) :
    Result (Option Response) × grafanaCloudBackend × Storage :=
  match s.deleteErr with
  | some err => (.error err, b, s)
  | none => (.ok none, b.reset, { s with config := none })

/-! ## Revocation (client/client.go, grafanacloud_key.go) -/

/-- Go method `Client.DeleteAPIKey`: the error, if any, and the request it sent. -/
def Client.DeleteAPIKey (c : Client) (remote : Remote) (org keyName : String) :
    Option GoError × List Request :=
  let url := "orgs/" ++ org ++ "/api-keys/" ++ keyName
  let req : Request :=
    { Method := "DELETE", BaseURL := c.BaseURL, AuthToken := c.AuthToken, URL := url,
      Body := none }
  (HandleError (remote req) "failed to delete Grafana Cloud Portal API key", [req])

/-- Go method `keyRevoke`; `secret` is `req.Secret`. The absent configuration is
dereferenced, and the key name is read with an unchecked type assertion. -/
def grafanaCloudBackend.keyRevoke (b : grafanaCloudBackend) (s : Storage) (remote : Remote)
    (secret : Secret) : Result (Option Response) × grafanaCloudBackend × List Request :=
  match b.getClient s with
  | (.error err, b1) => (.error ("error getting client: " ++ err), b1, [])
  | (.ok c, b1) =>
    match getConfig s with
    | .error err => (.error err, b1, [])
    | .ok none => (.panic "invalid memory address or nil pointer dereference", b1, [])
    | .ok (some config) =>
      let org := config.Organisation
      match secret.InternalData.lookup "name" with
      | some (Value.str tokenID) =>
        match c.DeleteAPIKey remote org tokenID with
        | (some err, calls) => (.error err, b1, calls)
        | (none, calls) => (.ok (some { Data := [], Secret := none }), b1, calls)
      | none => (.panic "interface conversion: interface {} is nil, not string", b1, [])
      | some Value.nil =>
        (.panic "interface conversion: interface {} is nil, not string", b1, [])
      | some _ => (.panic "interface conversion: interface {} is not string", b1, [])

/-! ## The retry policy (client/client.go, go-resty) -/

/-- Go constant `grafanaStarting`. -/
def grafanaStarting : String := "Your instance is starting"

/-- Go `unicode.IsSpace`. -/
def isSpace (c : Char) : Bool :=
  let n := c.toNat
  n == 9 || n == 10 || n == 11 || n == 12 || n == 13 || n == 32 || n == 133 || n == 160 ||
  n == 5760 || (decide (8192 ≤ n) && decide (n ≤ 8202)) || n == 8232 || n == 8233 ||
  n == 8239 || n == 8287 || n == 12288

/-- Go `strings.TrimSpace`: leading and trailing white space removed. -/
def TrimSpace (s : String) : String :=
  String.mk ((s.data.dropWhile isSpace).reverse.dropWhile isSpace).reverse

/-- Go `strings.Contains`: `substr` occurs in `s`. -/
def Contains (s substr : String) : Bool := decide (substr.data <:+: s.data)

/-- Resty `Response.String`: the body with surrounding white space trimmed. -/
def RestyResponse.String (r : RestyResponse) : String := TrimSpace r.Body

/-- Go function `canRetry` on a response. -/
def canRetry (r : RestyResponse) : Bool :=
  r.StatusCode == 429 || Contains r.String grafanaStarting

/-- The response resty hands to the retry conditions when the attempt ended in a
transport error: no raw response, hence status 0 and an empty body. -/
def noRawResponse : RestyResponse :=
  { StatusCode := 0, Body := "",
    Result := { ID := 0, Name := "", Role := "", Token := "", Expiration := "" } }

/-- Resty's decision to retry after an attempt, with `canRetry` the one retry condition
(the conditions overrule the default of retrying on a transport error). -/
def needsRetry (r : Except GoError RestyResponse) : Bool :=
  match r with
  | .ok resp => canRetry resp
  | .error _ => canRetry noRawResponse

/-- The remote service at the level of single attempts: what attempt number `n`
(from 0) of a request ends with. -/
abbrev Server := Nat → Request → Except GoError RestyResponse

/-- Resty `Backoff`, the loop `for attempt := 0; attempt <= maxRetries; attempt++`, with
`remaining = maxRetries - attempt`: the `(resp, err)` of the last attempt made and the
number of attempts made (waiting and context cancellation are not modelled). -/
def backoffLoop (operation : Nat → Except GoError RestyResponse) :
    (remaining : Nat) → (attempt : Nat) → Except GoError RestyResponse × Nat
  | 0, attempt => (operation attempt, attempt + 1)
  | remaining + 1, attempt =>
    if needsRetry (operation attempt) then backoffLoop operation remaining (attempt + 1)
    else (operation attempt, attempt + 1)

/-- Resty `Request.Execute` under the retry settings of the client: the outcome of the
request and the number of attempts made. -/
def Client.Execute (c : Client) (server : Server) (req : Request) :
    Except GoError RestyResponse × Nat :=
  backoffLoop (fun n => server n req) c.RetryCount 0

/-- The remote as the request methods see it through the retrying client. -/
def Client.remote (c : Client) (server : Server) : Remote :=
  fun req => (c.Execute server req).1

/-- The number of attempts the client makes for a request. -/
def Client.attempts (c : Client) (server : Server) (req : Request) : Nat :=
  (c.Execute server req).2

/-! ## Host field validation for the role paths -/

/-- The integer nearest to `n / d`, a tie going to the even one. -/
def roundHalfEven (n d : Nat) : Nat :=
  if 2 * (n % d) < d then n / d
  else if d < 2 * (n % d) then n / d + 1
  else if (n / d) % 2 = 0 then n / d else n / d + 1

/-- The least `k`, up to the fuel, with `2^52 ≤ (n / d) * 2^k`: the binary places kept
below the point by a 53-bit mantissa. The fuel 1074 is the spacing `2^-1074` of the
smallest `float64` values. -/
def mantissaShift (n d : Nat) : Nat → Nat
  | 0 => 0
  | fuel + 1 => if d * 2 ^ 52 ≤ n then 0 else mantissaShift (2 * n) d fuel + 1

/-- The least `j`, up to the fuel, with `n / d < 2^53 * 2^j`: the binary places dropped
above the point by a 53-bit mantissa. -/
def exponentShift (n d : Nat) : Nat → Nat
  | 0 => 0
  | fuel + 1 => if n < d * 2 ^ 53 then 0 else exponentShift n (2 * d) fuel + 1

/-- IEEE 754 binary64 rounding, to nearest with ties to even, of the non-negative
rational `n / d` below `2^1024`: the `float64` nearest to it, as a fraction. -/
def float64Round (n d : Nat) : Nat × Nat :=
  if n = 0 then (0, 1)
  else if n < d * 2 ^ 53 then
    (roundHalfEven (n * 2 ^ mantissaShift n d 1074) d, 2 ^ mantissaShift n d 1074)
  else
    (roundHalfEven n (d * 2 ^ exponentShift n d 971) * 2 ^ exponentShift n d 971, 1)

/-- Go `int(d.Seconds())` with `Seconds` as the library computes it in `float64`:
`sec := d / Second`, `nsec := d % Second`, `float64(sec) + float64(nsec)/1e9`. Both
integers are below 2^53 and convert exactly, the quotient and the sum are rounded, the
two parts have the sign of `d`, and the conversion to `int` truncates toward zero. -/
def Duration.intSeconds (d : Duration) : Int :=
  let sec := (Int.tdiv d Second).natAbs
  let nsec := (Int.tmod d Second).natAbs
  let q := float64Round nsec 1000000000
  let sum := float64Round (sec * q.2 + q.1) q.2
  Int.sign d * ((sum.1 / sum.2 : Nat) : Int)

/-- Host SDK parsing of a `TypeDurationSecond` field supplied as a Go `int` (as the
tests of the repository supply it): `ParseDurationSecond` makes it
`time.Duration(v) * time.Second`, with `int64` overflow; `getPrimitive` refuses it when
`int(dur.Seconds()) < 0` with `cannot provide negative value '%d'` of that number, and
otherwise hands on `int(dur.Seconds())`. -/
def parseDurationSecond (v : Int) : Except GoError Int :=
  let dur := secondsToDuration v
  if Duration.intSeconds dur < 0 then
    .error ("cannot provide negative value '" ++ toString (Duration.intSeconds dur) ++ "'")
  else .ok (Duration.intSeconds dur)

/-- Host SDK `FieldData.Validate` on one duration field, and the value `GetOk` then has
for the handler: a field that was not supplied is not parsed; a failure is wrapped as
`error converting input %v for field %q: ` followed by the cause. -/
def validateDuration (field : String) : Option Int → Except GoError (Option Int)
  | none => .ok none
  | some v =>
    match parseDurationSecond v with
    | .error err =>
      .error ("error converting input " ++ toString v ++ " for field \"" ++ field ++ "\": "
        ++ err)
    | .ok n => .ok (some n)

/-- Host SDK `FieldData.Validate` on the fields of a role path. It ranges over the map of
supplied fields, in an order Go leaves open, and returns at the first field that fails:
when both durations fail, `maxTTLFirst` tells which one this run visits first. Names and
gc_role are strings as supplied and do not fail. -/
def validateRoleFields (maxTTLFirst : Bool) (raw : RoleFieldData) :
    Except GoError RoleFieldData :=
  match validateDuration "ttl" raw.ttl, validateDuration "max_ttl" raw.max_ttl with
  | .ok ttl, .ok maxTTL => .ok { raw with ttl := ttl, max_ttl := maxTTL }
  | .error err, .ok _ => .error err
  | .ok _, .error err => .error err
  | .error errTTL, .error errMaxTTL => .error (if maxTTLFirst then errMaxTTL else errTTL)

/-- Host SDK `Backend.HandleRequest` for a create or update on `roles/<name>`: the
fields are validated, a validation failure is answered with an error response, and
otherwise `pathRolesWrite` is called. -/
def handleRoleWrite (maxTTLFirst : Bool) (s : Storage) (op : Operation) (raw : RoleFieldData) :
    Result (Option Response) × Storage :=
  match validateRoleFields maxTTLFirst raw with
  | .error err => (.ok (some (ErrorResponse ("Field validation failed: " ++ err))), s)
  | .ok d => pathRolesWrite s op d

/-! ## Executions of the role store -/

/-- An event on the role store: a write or delete request, or the storage starting or
ceasing to fail. -/
inductive RoleOp where
  | write (op : Operation) (d : RoleFieldData)
  | delete (d : RoleFieldData)
  | faults (getErr putErr deleteErr : Option GoError)
deriving DecidableEq, Repr

/-- The storage an event leaves behind. -/
def RoleOp.apply (s : Storage) : RoleOp → Storage
  | .write op d => (pathRolesWrite s op d).2
  | .delete d => (pathRolesDelete s d).2
  | .faults g p dl => { s with getErr := g, putErr := p, deleteErr := dl }

/-- The storage left by a sequence of events, first event first. -/
def runRoleOps (s : Storage) (ops : List RoleOp) : Storage := ops.foldl RoleOp.apply s

/-- The names of the valid authorization levels, as the specification enumerates them. -/
def validRoleNames : List String :=
  ["Viewer", "Admin", "Editor", "MetricsPublisher", "PluginPublisher"]

/-- A handler result that is an error response: a nil error with `resp.IsError()`. -/
def Result.isErrorResponse : Result (Option Response) → Bool
  | .ok (some r) => r.IsError
  | _ => false

/-- A handler result that is a success: a nil error and no error response. -/
def Result.isSuccess : Result (Option Response) → Bool
  | .ok none => true
  | .ok (some r) => !r.IsError
  | _ => false

/-! ## Executions of the configuration store and of the client cache -/

/-- An event on the configuration and the client cache: a write or delete request, an
invalidation by the host, a `getClient` call, or the storage starting or ceasing to fail. -/
inductive ConfigOp where
  | write (op : Operation) (data : ConfigFieldData)
  | delete
  | invalidate (key : String)
  | getClient
  | faults (getErr putErr deleteErr : Option GoError)
deriving DecidableEq, Repr

/-- The backend and storage an event leaves behind. -/
def ConfigOp.apply (parseRest : String → String → Option GoError)
    (st : grafanaCloudBackend × Storage) : ConfigOp → grafanaCloudBackend × Storage
  | .write op data => (st.1.pathConfigWrite parseRest st.2 op data).2
  | .delete => (st.1.pathConfigDelete st.2).2
  | .invalidate key => (st.1.invalidate key, st.2)
  | .getClient => ((st.1.getClient st.2).2, st.2)
  | .faults g p dl => (st.1, { st.2 with getErr := g, putErr := p, deleteErr := dl })

/-- The backend and storage left by a sequence of events, first event first. -/
def runConfigOps (parseRest : String → String → Option GoError)
    (st : grafanaCloudBackend × Storage) (ops : List ConfigOp) :
    grafanaCloudBackend × Storage :=
  ops.foldl (ConfigOp.apply parseRest) st

/-- The configuration check of `pathConfigWrite`: the URL parses and is absolute. -/
def isAbsoluteRequestURI (parseRest : String → String → Option GoError) (rawURL : String) :
    Bool :=
  match ParseRequestURI parseRest rawURL with
  | .error _ => false
  | .ok u => u.IsAbs

/-- The configuration `getClient` builds from: the persisted one, or the zero one. -/
def configOrZero (s : Storage) : grafanaCloudConfig :=
  s.config.getD { Organisation := "", Key := "", URL := "", User := "" }

/-- The configuration a write leaves when it succeeds: each supplied field over the
stored one, the empty string where nothing is stored. -/
def mergedConfig (s : Storage) (data : ConfigFieldData) : grafanaCloudConfig :=
  { Organisation := data.organisation.getD (configOrZero s).Organisation,
    Key := data.key.getD (configOrZero s).Key,
    URL := data.url.getD (configOrZero s).URL,
    User := data.user.getD (configOrZero s).User }

/-! ## Executions of the role store through the host request handler -/

/-- A request on the role paths as the host receives it; a write comes with the order in
which its validation visits the two duration fields. -/
inductive RoleRequest where
  | write (maxTTLFirst : Bool) (op : Operation) (raw : RoleFieldData)
  | delete (d : RoleFieldData)
deriving DecidableEq, Repr

/-- The storage a request leaves behind. -/
def RoleRequest.apply (s : Storage) : RoleRequest → Storage
  | .write maxTTLFirst op raw => (handleRoleWrite maxTTLFirst s op raw).2
  | .delete d => (pathRolesDelete s d).2

/-- The storage left by a sequence of requests, first request first. -/
def runRoleRequests (s : Storage) (reqs : List RoleRequest) : Storage :=
  reqs.foldl RoleRequest.apply s

/-! ## Concurrent callers of `getClient` (backend.go, the lock discipline) -/

/-- Lines 88-105 of `getClient`, the part run while holding the exclusive lock: the
result, the backend left behind, and the number of calls of `NewClient` made. The cache
is not read again here. -/
def grafanaCloudBackend.getClientLocked (b : grafanaCloudBackend) (s : Storage) :
    Except GoError Client × grafanaCloudBackend × Nat :=
  match getConfig s with
  | .error err => (.error err, b, 0)
  | .ok found =>
    let config : grafanaCloudConfig :=
      found.getD { Organisation := "", Key := "", URL := "", User := "" }
    match NewClient config.URL config.Key with
    | .error err => (.error err, { b with client := none }, 1)
    | .ok c => (.ok c, { b with client := some c }, 1)

/-- Where a caller of `getClient` stands: before `b.lock.RLock()`; after it found the
cache empty under the read lock and released that lock, waiting for `b.lock.Lock()`; or
returned. -/
inductive CallerState where
  | start
  | waitLock
  | done (result : Except GoError Client)
deriving DecidableEq, Repr

/-- The backend shared by concurrent callers of `getClient`, the callers, and the number
of calls of `NewClient` made so far. -/
structure ConcurrentState where
  backend : grafanaCloudBackend
  callers : List CallerState
  constructions : Nat
deriving DecidableEq, Repr

/-- Callers `0 .. n-1` about to call `getClient` on an empty cache. -/
def ConcurrentState.init (n : Nat) : ConcurrentState :=
  { backend := { client := none }, callers := List.replicate n CallerState.start,
    constructions := 0 }

/-- One atomic step of caller `i`. From `start`: lines 79-87, the read of `b.client`
under the read lock, returning the cached client or releasing the read lock. From
`waitLock`: lines 88-105 under the exclusive lock, which no other caller's step can
interleave with. A caller that has returned, or an index that is no caller, does nothing. -/
def ConcurrentState.step (s : Storage) (st : ConcurrentState) (i : Nat) : ConcurrentState :=
  match st.callers[i]? with
  | some CallerState.start =>
    match st.backend.client with
    | some c => { st with callers := st.callers.set i (CallerState.done (.ok c)) }
    | none => { st with callers := st.callers.set i CallerState.waitLock }
  | some CallerState.waitLock =>
    { backend := (st.backend.getClientLocked s).2.1,
      callers := st.callers.set i (CallerState.done (st.backend.getClientLocked s).1),
      constructions := st.constructions + (st.backend.getClientLocked s).2.2 }
  | _ => st

/-- An interleaving: the callers take their steps in the order of the schedule. -/
def runSchedule (s : Storage) (st : ConcurrentState) (schedule : List Nat) : ConcurrentState :=
  schedule.foldl (ConcurrentState.step s) st

/-- A caller has returned. -/
def CallerState.isDone : CallerState → Bool
  | .done _ => true
  | _ => false

/-! ## Sample inputs -/

/-- The role of the issuance scenario: Viewer, ttl 120s, max_ttl 3600s. -/
def sampleRole : grafanaCloudRoleEntry :=
  { GrafanaCloudRole := "Viewer", TTL := 120000000000, MaxTTL := 3600000000000 }

/-- Storage holding `viewer-role` and no configuration. -/
def sampleStorageNoConfig : Storage :=
  { roles := [("viewer-role", sampleRole)], config := none,
    getErr := none, putErr := none, deleteErr := none }

/-- Storage holding `viewer-role` and the configuration of organisation acme. -/
def sampleStorage : Storage :=
  { sampleStorageNoConfig with
    config := some { Organisation := "acme", Key := "K", URL := "http://x/", User := "" } }

/-- A remote that creates every key it is asked for. -/
def sampleRemote : Remote := fun req =>
  .ok { StatusCode := 200, Body := "",
        Result := { ID := 1, Name := (req.Body.map (fun r => r.Name)).getD "",
                    Role := (req.Body.map (fun r => r.Role)).getD "",
                    Token := "glc_token", Expiration := "" } }

/-- A sample UUID. -/
def sampleUUID : UUID := fun i => ⟨(i.val * 17 + 3) % 256, Nat.mod_lt _ (by decide)⟩

/-- A second sample UUID. -/
def sampleUUID2 : UUID := fun i => ⟨(i.val * 29 + 7) % 256, Nat.mod_lt _ (by decide)⟩

/-- A backend with an empty client cache. -/
def sampleBackend : grafanaCloudBackend := { client := none }

/-- A lease with bounds 120s and 3600s whose metadata names the role `viewer-role`. -/
def sampleLease : Secret :=
  { TTL := 120000000000, MaxTTL := 3600000000000, Renewable := true,
    InternalData := [("secret_type", Value.str "GrafanaCloudKey"),
                     ("name", Value.str "viewer-role_x"), ("role", Value.str "viewer-role")] }

/-- Storage in which `viewer-role` has been rewritten with ttl and max_ttl 0. -/
def sampleStorageZeroTTL : Storage :=
  { roles := [("viewer-role", { GrafanaCloudRole := "Viewer", TTL := 0, MaxTTL := 0 })],
    config := none, getErr := none, putErr := none, deleteErr := none }

/-- A create that supplies ttl 10s above max_ttl 5s and no gc_role. -/
def sampleCreateNoGcRole : RoleFieldData :=
  { name := some "r", gc_role := none, ttl := some 10, max_ttl := some 5 }

/-- An update of `viewer-role` that only raises ttl to 4000s. -/
def sampleUpdateTTL : RoleFieldData :=
  { name := some "viewer-role", gc_role := none, ttl := some 4000, max_ttl := none }

/-- An update of `viewer-role` that only lowers max_ttl to 60s. -/
def sampleUpdateMaxTTL : RoleFieldData :=
  { name := some "viewer-role", gc_role := none, ttl := none, max_ttl := some 60 }

/-- An update of the absent role `r` that supplies only ttl 60s. -/
def sampleUpdateAbsent : RoleFieldData :=
  { name := some "r", gc_role := none, ttl := some 60, max_ttl := none }

/-- A create of `viewer-role` with gc_role Viewer and no ttl fields. -/
def sampleCreateViewer : RoleFieldData :=
  { name := some "viewer-role", gc_role := some "Viewer", ttl := none, max_ttl := none }

/-- A request on `roles/viewer-role` without fields (read, delete). -/
def sampleNameOnly : RoleFieldData :=
  { name := some "viewer-role", gc_role := none, ttl := none, max_ttl := none }

/-- A `parseRest` that accepts every authority and path. -/
def acceptRest : String → String → Option GoError := fun _ _ => none

/-- A create on `config` that supplies key and url but no organisation. -/
def sampleCreateWithoutOrganisation : ConfigFieldData :=
  { organisation := none, key := some "K2", url := some "http://y/", user := none }

/-- A create on `config` with organisation, key and url and no user. -/
def sampleConfigCreate : ConfigFieldData :=
  { organisation := some "testorg", key := some "1234567",
    url := some "http://localhost:19090/", user := none }

/-- An update on `config` that supplies only the url "abcde". -/
def sampleUpdateBadURL : ConfigFieldData :=
  { organisation := none, key := none, url := some "abcde", user := none }

/-- A lease whose metadata has no key name. -/
def sampleLeaseNoName : Secret :=
  { TTL := 120000000000, MaxTTL := 3600000000000, Renewable := true,
    InternalData := [("secret_type", Value.str "GrafanaCloudKey")] }

/-- A lease whose metadata has a number under "name". -/
def sampleLeaseNumericName : Secret :=
  { TTL := 120000000000, MaxTTL := 3600000000000, Renewable := true,
    InternalData := [("secret_type", Value.str "GrafanaCloudKey"), ("name", Value.int 7)] }

/-- The client `NewClient` builds from the sample configuration. -/
def sampleClient : Client :=
  { BaseURL := "http://x/", AuthToken := "K", Timeout := 10 * Second,
    RetryWaitTime := 10 * Second, RetryCount := 6, TempKeyExpires := 60 * Second }

/-- A server that answers every attempt with HTTP 429. -/
def alwaysBusy : Server := fun _ _ => .ok { noRawResponse with StatusCode := 429 }

/-- A server that answers 429 on the first two attempts and 200 with a key on the third. -/
def busyTwice : Server := fun n req =>
  if n < 2 then .ok { noRawResponse with StatusCode := 429 } else sampleRemote req

/-- A request to create the key "k" for organisation acme through the sample client. -/
def sampleCreateRequest : Request :=
  { Method := "POST", BaseURL := "http://x/", AuthToken := "K", URL := "orgs/acme/api-keys",
    Body := some { Name := "k", Role := "Viewer", Organisation := "acme" } }

/-- A role write that supplies ttl -1s with max_ttl 3600s. -/
def sampleNegativeTTL : RoleFieldData :=
  { name := some "r", gc_role := some "Viewer", ttl := some (-1), max_ttl := some 3600 }

/-- A role write that supplies max_ttl -1s and no ttl. -/
def sampleNegativeMaxTTL : RoleFieldData :=
  { name := some "r", gc_role := some "Viewer", ttl := none, max_ttl := some (-1) }

/-- A role write that supplies ttl -9223372037s, whose nanoseconds overflow `int64`, and
no max_ttl. -/
def sampleOverflowingTTL : RoleFieldData :=
  { name := some "r", gc_role := some "Viewer", ttl := some (-9223372037), max_ttl := none }

/-- A role write that supplies ttl 18446744073s, whose nanoseconds overflow `int64`, and
no max_ttl. -/
def sampleWrappingTTL : RoleFieldData :=
  { name := some "r", gc_role := some "Viewer", ttl := some 18446744073, max_ttl := none }

/-- A role write whose ttl -1s and max_ttl -2s are both refused. -/
def sampleBothNegative : RoleFieldData :=
  { name := some "r", gc_role := some "Viewer", ttl := some (-1), max_ttl := some (-2) }

/-! ## C1: the metadata issuance records -/

/-- Every successful issuance returns a secret whose lease-internal metadata has the
key name under "name" and nothing under "role". -/
theorem createUserCreds_internalData (b : grafanaCloudBackend) (s : Storage) (remote : Remote)
    (u : UUID) (roleName : String) (role : grafanaCloudRoleEntry) (resp : Response)
    (b1 : grafanaCloudBackend) (calls : List Request)
    (h : b.createUserCreds s remote u roleName role = (.ok (some resp), b1, calls)) :
    ∃ sec nm, resp.Secret = some sec ∧
      sec.InternalData = [("secret_type", Value.str "GrafanaCloudKey"), ("name", Value.str nm)] := by
  unfold grafanaCloudBackend.createUserCreds at h
  split at h
  · simp at h
  · simp at h
  · rename_i key b2 calls2 hk
    simp only [Prod.mk.injEq, Result.ok.injEq, Option.some.injEq] at h
    obtain ⟨h1, -, -⟩ := h
    subst h1
    by_cases h1 : role.TTL > 0 <;> by_cases h2 : role.MaxTTL > 0 <;>
      simp [h1, h2, Response.setTTL, Response.setMaxTTL, FrameworkSecret.Response,
        grafanaCloudKey, grafanaCloudKeyType]

/-- C1 (failing input): issuing from role "viewer-role" with a stored configuration and a
remote that creates the key succeeds, and the lease-internal metadata of the returned
secret holds the key name under "name" but nothing under "role"; renewing with exactly
that metadata fails with the missing-role error although the role is still stored. -/
theorem issue_metadata_lacks_role :
    ∃ resp sec,
      (sampleBackend.pathCredentialsRead sampleStorage sampleRemote sampleUUID
        { name := "viewer-role" }).1 = .ok (some resp) ∧
      resp.Secret = some sec ∧
      sec.InternalData.lookup "name" =
        some (Value.str "viewer-role_03142536-4758-697a-8b9c-adbecfe0f102") ∧
      sec.InternalData.lookup "role" = none ∧
      getRole sampleStorage "viewer-role" = .ok (some sampleRole) ∧
      keyRenew sampleStorage sec = .error "secret is missing role internal data" := by
  refine ⟨_, _, rfl, rfl, ?_, ?_, ?_, ?_⟩ <;> decide

/-! ## Association lists under Put and Delete -/

/-- Filtering out one key leaves the lookups of the other keys as they were. -/
theorem lookup_filter_ne {β : Type} (l : List (String × β)) (k n : String) (h : k ≠ n) :
    (l.filter (fun kv => kv.1 != n)).lookup k = l.lookup k := by
  induction l with
  | nil => rfl
  | cons x xs ih =>
    obtain ⟨a, v⟩ := x
    by_cases ha : a = n
    · subst ha
      have hk : (k == a) = false := by simpa using h
      simp [List.filter_cons, List.lookup_cons, hk, ih]
    · have hne : (a != n) = true := by simpa using ha
      simp only [List.filter_cons, hne, if_true, List.lookup_cons, ih]

/-- Filtering out a key leaves nothing under that key. -/
theorem lookup_filter_self {β : Type} (l : List (String × β)) (n : String) :
    (l.filter (fun kv => kv.1 != n)).lookup n = none := by
  induction l with
  | nil => rfl
  | cons x xs ih =>
    obtain ⟨a, v⟩ := x
    by_cases ha : a = n
    · subst ha
      simp [List.filter_cons, ih]
    · have hne : (a != n) = true := by simpa using ha
      have hk : (n == a) = false := by simpa using fun h => ha h.symm
      simp only [List.filter_cons, hne, if_true, List.lookup_cons, hk, ih]

/-- A role Put under a name is what a lookup of that name finds. -/
theorem setRole_lookup (s s1 : Storage) (name : String) (r : grafanaCloudRoleEntry)
    (h : setRole s name r = .ok s1) :
    s1.roles.lookup name = some r ∧ ∀ k, k ≠ name → s1.roles.lookup k = s.roles.lookup k := by
  unfold setRole at h
  split at h
  · simp at h
  · simp only [Except.ok.injEq] at h
    subst h
    refine ⟨by simp [List.lookup_cons], fun k hk => ?_⟩
    have hk2 : (k == name) = false := by simpa using hk
    simp only [List.lookup_cons, hk2]
    exact lookup_filter_ne _ _ _ hk

/-! ## C2: the bounds renewal returns -/

/-- What a renewal returns when the metadata names a stored role: the lease with each
bound replaced by the bound of the role when that is positive, and kept otherwise. -/
theorem keyRenew_stored (s : Storage) (secret : Secret) (role : String)
    (roleEntry : grafanaCloudRoleEntry)
    (hmd : secret.InternalData.lookup "role" = some (Value.str role))
    (hrole : getRole s role = .ok (some roleEntry)) :
    keyRenew s secret = .ok (some (Response.mk [] (some
      { TTL := if roleEntry.TTL > 0 then roleEntry.TTL else secret.TTL,
        MaxTTL := if roleEntry.MaxTTL > 0 then roleEntry.MaxTTL else secret.MaxTTL,
        Renewable := secret.Renewable, InternalData := secret.InternalData }))) := by
  unfold keyRenew
  rw [hmd]
  simp only [hrole]
  by_cases h1 : roleEntry.TTL > 0 <;> by_cases h2 : roleEntry.MaxTTL > 0 <;>
    simp [h1, h2, Response.setTTL, Response.setMaxTTL]

/-- C2 (counterexample): the role "viewer-role" is stored with ttl 0 and max_ttl 0 and the
lease carries TTL 120s and MaxTTL 3600s; the renewal succeeds and returns the lease
unchanged, with TTL 120s and MaxTTL 3600s, not the 0 of the role. -/
theorem keyRenew_zero_role_keeps_lease_bounds :
    getRole sampleStorageZeroTTL "viewer-role" =
      .ok (some { GrafanaCloudRole := "Viewer", TTL := 0, MaxTTL := 0 }) ∧
    keyRenew sampleStorageZeroTTL sampleLease =
      .ok (some { Data := [], Secret := some sampleLease }) ∧
    sampleLease.TTL = 120000000000 ∧ sampleLease.MaxTTL = 3600000000000 ∧
    ¬ (∀ (s : Storage) (secret sec : Secret) (role : String) (roleEntry : grafanaCloudRoleEntry)
        (resp : Response),
        secret.InternalData.lookup "role" = some (Value.str role) →
        getRole s role = .ok (some roleEntry) →
        keyRenew s secret = .ok (some resp) → resp.Secret = some sec →
        sec.TTL = roleEntry.TTL ∧ sec.MaxTTL = roleEntry.MaxTTL) := by
  refine ⟨by decide, by decide, rfl, rfl, fun h => ?_⟩
  have h1 := h sampleStorageZeroTTL sampleLease sampleLease "viewer-role"
    { GrafanaCloudRole := "Viewer", TTL := 0, MaxTTL := 0 }
    { Data := [], Secret := some sampleLease } (by decide) (by decide) (by decide) rfl
  exact absurd h1.1 (by decide)

/-- C2 (amended): for every renewal whose metadata names a stored role, the renewal
succeeds and the returned lease has TTL equal to the current ttl of the role when that is
positive and the TTL the lease carried otherwise, and MaxTTL equal to the current max_ttl
of the role when that is positive and the MaxTTL the lease carried otherwise. -/
theorem keyRenew_bounds (s : Storage) (secret : Secret) (role : String)
    (roleEntry : grafanaCloudRoleEntry)
    (hmd : secret.InternalData.lookup "role" = some (Value.str role))
    (hrole : getRole s role = .ok (some roleEntry)) :
    ∃ resp sec, keyRenew s secret = .ok (some resp) ∧ resp.Secret = some sec ∧
      (0 < roleEntry.TTL → sec.TTL = roleEntry.TTL) ∧
      (¬ 0 < roleEntry.TTL → sec.TTL = secret.TTL) ∧
      (0 < roleEntry.MaxTTL → sec.MaxTTL = roleEntry.MaxTTL) ∧
      (¬ 0 < roleEntry.MaxTTL → sec.MaxTTL = secret.MaxTTL) := by
  refine ⟨_, Secret.mk (if roleEntry.TTL > 0 then roleEntry.TTL else secret.TTL)
        (if roleEntry.MaxTTL > 0 then roleEntry.MaxTTL else secret.MaxTTL)
        secret.Renewable secret.InternalData,
    keyRenew_stored s secret role roleEntry hmd hrole, rfl, ?_, ?_, ?_, ?_⟩ <;>
    intro h <;> simp [h]

/-- C2 (witness): renewing the sample lease against the stored role of ttl 120s and
max_ttl 3600s. -/
theorem keyRenew_bounds_witness :
    ∃ resp sec, keyRenew sampleStorage sampleLease = .ok (some resp) ∧ resp.Secret = some sec ∧
      (0 < sampleRole.TTL → sec.TTL = sampleRole.TTL) ∧
      (¬ 0 < sampleRole.TTL → sec.TTL = sampleLease.TTL) ∧
      (0 < sampleRole.MaxTTL → sec.MaxTTL = sampleRole.MaxTTL) ∧
      (¬ 0 < sampleRole.MaxTTL → sec.MaxTTL = sampleLease.MaxTTL) :=
  keyRenew_bounds sampleStorage sampleLease "viewer-role" sampleRole (by decide) (by decide)

/-! ## C3: when renewal succeeds -/

/-- The role reader refuses the empty name. -/
theorem getRole_ok_ne_empty (s : Storage) (name : String) (found : Option grafanaCloudRoleEntry)
    (h : getRole s name = .ok found) : name ≠ "" := by
  intro hn
  simp [getRole, hn] at h

/-- The role reader on a working storage is the lookup of the name. -/
theorem getRole_working (s : Storage) (name : String) (hn : name ≠ "") (hget : s.getErr = none) :
    getRole s name = .ok (s.roles.lookup name) := by
  simp [getRole, hn, hget]

/-- A role write leaves the storage as it was or Puts one entry under its non-empty name. -/
theorem pathRolesWrite_storage (s : Storage) (op : Operation) (d : RoleFieldData) :
    (pathRolesWrite s op d).2 = s ∨
    ∃ name r, d.name = some name ∧ name ≠ "" ∧ setRole s name r = .ok (pathRolesWrite s op d).2 := by
  unfold pathRolesWrite
  split
  · exact Or.inl rfl
  · rename_i name hname
    split
    · exact Or.inl rfl
    · rename_i found hfound
      have hne := getRole_ok_ne_empty s name found hfound
      have key : ∀ (c : Bool) (r0 : grafanaCloudRoleEntry),
          (pathRolesWriteTTL s c name d r0).2 = s ∨
          ∃ r, setRole s name r = .ok (pathRolesWriteTTL s c name d r0).2 := by
        intro c r0
        unfold pathRolesWriteTTL
        simp only
        split
        · exact Or.inl rfl
        · split
          · exact Or.inl rfl
          · rename_i s1 hs1
            exact Or.inr ⟨_, hs1⟩
      simp only
      split
      · split
        · rcases key _ _ with h | ⟨r, h⟩
          · exact Or.inl h
          · exact Or.inr ⟨name, r, hname, hne, h⟩
        · exact Or.inl rfl
      · split
        · exact Or.inl rfl
        · rcases key _ _ with h | ⟨r, h⟩
          · exact Or.inl h
          · exact Or.inr ⟨name, r, hname, hne, h⟩

/-- No event stores a role under the empty name. -/
theorem RoleOp.apply_lookup_empty (s : Storage) (ev : RoleOp) (h : s.roles.lookup "" = none) :
    (ev.apply s).roles.lookup "" = none := by
  cases ev with
  | write op d =>
    rcases pathRolesWrite_storage s op d with h1 | ⟨name, r, -, hne, h1⟩
    · simp only [RoleOp.apply, h1, h]
    · have := (setRole_lookup s _ name r h1).2 "" (fun e => hne e.symm)
      simp only [RoleOp.apply, this, h]
  | delete d =>
    simp only [RoleOp.apply, pathRolesDelete]
    split
    · exact h
    · by_cases hn : "" = d.name.getD ""
      · simp only
        rw [← hn]
        exact lookup_filter_self _ _
      · simp only
        rw [lookup_filter_ne _ _ _ hn]
        exact h
  | faults g p dl => exact h

/-- In every storage reached from one without a role under the empty name, no role is
stored under the empty name. -/
theorem runRoleOps_lookup_empty (ops : List RoleOp) (s : Storage)
    (h : s.roles.lookup "" = none) : (runRoleOps s ops).roles.lookup "" = none := by
  induction ops generalizing s with
  | nil => exact h
  | cons ev rest ih => exact ih _ (RoleOp.apply_lookup_empty s ev h)

/-- A successful renewal names a role in its metadata and that role is read. -/
theorem keyRenew_success_inv (s : Storage) (secret : Secret)
    (h : (keyRenew s secret).isSuccess = true) :
    ∃ role roleEntry, secret.InternalData.lookup "role" = some (Value.str role) ∧
      getRole s role = .ok (some roleEntry) := by
  unfold keyRenew at h
  split at h
  · simp [Result.isSuccess] at h
  · rename_i role hmd
    split at h
    · simp [Result.isSuccess] at h
    · simp [Result.isSuccess] at h
    · rename_i roleEntry hrole
      exact ⟨role, roleEntry, hmd, hrole⟩
  · simp [Result.isSuccess] at h

/-- C3: in every storage reached from the empty one by role writes, deletes and storage
faults, with storage reads succeeding, a renewal succeeds if and only if the lease
metadata holds a role name and a role is stored under that name; it fails with the
missing-metadata error when the metadata has no role name, and with the not-found error
when the named role was stored earlier and is stored no longer. -/
theorem keyRenew_succeeds_iff (ops1 ops2 : List RoleOp) (secret : Secret)
    (hget : (runRoleOps (runRoleOps Storage.empty ops1) ops2).getErr = none) :
    ((keyRenew (runRoleOps (runRoleOps Storage.empty ops1) ops2) secret).isSuccess = true ↔
      ∃ role, secret.InternalData.lookup "role" = some (Value.str role) ∧
        ((runRoleOps (runRoleOps Storage.empty ops1) ops2).roles.lookup role).isSome = true) ∧
    (secret.InternalData.lookup "role" = none →
      keyRenew (runRoleOps (runRoleOps Storage.empty ops1) ops2) secret =
        .error "secret is missing role internal data") ∧
    (∀ role, secret.InternalData.lookup "role" = some (Value.str role) →
      ((runRoleOps Storage.empty ops1).roles.lookup role).isSome = true →
      (runRoleOps (runRoleOps Storage.empty ops1) ops2).roles.lookup role = none →
      keyRenew (runRoleOps (runRoleOps Storage.empty ops1) ops2) secret =
        .error "error retrieving role: role is nil") := by
  have hinv1 : (runRoleOps Storage.empty ops1).roles.lookup "" = none :=
    runRoleOps_lookup_empty ops1 _ rfl
  have hinv2 := runRoleOps_lookup_empty ops2 _ hinv1
  generalize runRoleOps (runRoleOps Storage.empty ops1) ops2 = s at hget hinv2 ⊢
  refine ⟨⟨fun h => ?_, fun h => ?_⟩, fun h => ?_, fun role hmd h0 h1 => ?_⟩
  · obtain ⟨role, roleEntry, hmd, hrole⟩ := keyRenew_success_inv s secret h
    have hne := getRole_ok_ne_empty s role _ hrole
    rw [getRole_working s role hne hget] at hrole
    simp only [Except.ok.injEq] at hrole
    exact ⟨role, hmd, by simp [hrole]⟩
  · obtain ⟨role, hmd, hst⟩ := h
    have hne : role ≠ "" := by
      intro e
      subst e
      simp [hinv2] at hst
    obtain ⟨roleEntry, hr⟩ := Option.isSome_iff_exists.mp hst
    have hrole : getRole s role = .ok (some roleEntry) := by
      rw [getRole_working s role hne hget, hr]
    rw [keyRenew_stored s secret role roleEntry hmd hrole]
    simp [Result.isSuccess, Response.IsError]
  · simp [keyRenew, h]
  · have hne : role ≠ "" := by
      intro e
      subst e
      simp [hinv1] at h0
    have hrole : getRole s role = .ok none := by
      rw [getRole_working s role hne hget, h1]
    simp [keyRenew, hmd, hrole]

/-- C3 (witness): a role is created and then deleted; the lease names it. -/
theorem keyRenew_succeeds_iff_witness :
    ((keyRenew (runRoleOps (runRoleOps Storage.empty
        [RoleOp.write Operation.CreateOperation sampleCreateViewer])
        [RoleOp.delete sampleNameOnly]) sampleLease).isSuccess = true ↔
      ∃ role, sampleLease.InternalData.lookup "role" = some (Value.str role) ∧
        ((runRoleOps (runRoleOps Storage.empty
          [RoleOp.write Operation.CreateOperation sampleCreateViewer])
          [RoleOp.delete sampleNameOnly]).roles.lookup role).isSome = true) ∧
    (sampleLease.InternalData.lookup "role" = none →
      keyRenew (runRoleOps (runRoleOps Storage.empty
        [RoleOp.write Operation.CreateOperation sampleCreateViewer])
        [RoleOp.delete sampleNameOnly]) sampleLease =
        .error "secret is missing role internal data") ∧
    (∀ role, sampleLease.InternalData.lookup "role" = some (Value.str role) →
      ((runRoleOps Storage.empty
        [RoleOp.write Operation.CreateOperation sampleCreateViewer]).roles.lookup role).isSome
        = true →
      (runRoleOps (runRoleOps Storage.empty
        [RoleOp.write Operation.CreateOperation sampleCreateViewer])
        [RoleOp.delete sampleNameOnly]).roles.lookup role = none →
      keyRenew (runRoleOps (runRoleOps Storage.empty
        [RoleOp.write Operation.CreateOperation sampleCreateViewer])
        [RoleOp.delete sampleNameOnly]) sampleLease =
        .error "error retrieving role: role is nil") :=
  keyRenew_succeeds_iff [RoleOp.write Operation.CreateOperation sampleCreateViewer]
    [RoleOp.delete sampleNameOnly] sampleLease (by decide)

/-- Renewal after the deletion of the role named in the lease: the not-found error. -/
theorem keyRenew_after_delete :
    keyRenew (runRoleOps (runRoleOps Storage.empty
        [RoleOp.write Operation.CreateOperation sampleCreateViewer])
        [RoleOp.delete sampleNameOnly]) sampleLease =
      .error "error retrieving role: role is nil" := by
  decide

/-- Renewal when the metadata holds a value under "role" that is not a string: the type
assertion panics. -/
theorem keyRenew_non_string_role (s : Storage) (secret : Secret) (v : Value)
    (hmd : secret.InternalData.lookup "role" = some v) (hv : ∀ role, v ≠ Value.str role) :
    ∃ msg, keyRenew s secret = .panic msg := by
  unfold keyRenew
  rw [hmd]
  cases v with
  | str role => exact absurd rfl (hv role)
  | float q => exact ⟨_, rfl⟩
  | int n => exact ⟨_, rfl⟩
  | nil => exact ⟨_, rfl⟩

/-! ## C4: ttl above max_ttl -/

/-- The merged ttl and max_ttl do not depend on the gc_role of the entry merged into. -/
theorem mergeTTLs_gc_role (c : Bool) (d : RoleFieldData) (r : grafanaCloudRoleEntry)
    (g : String) :
    (mergeTTLs c d { r with GrafanaCloudRole := g }).TTL = (mergeTTLs c d r).TTL ∧
    (mergeTTLs c d { r with GrafanaCloudRole := g }).MaxTTL = (mergeTTLs c d r).MaxTTL := by
  unfold mergeTTLs
  cases d.ttl <;> cases d.max_ttl <;> cases c <;> simp

/-- The tail of a role write rejects a merged ttl above a non-zero merged max_ttl. -/
theorem pathRolesWriteTTL_rejects (s : Storage) (c : Bool) (name : String) (d : RoleFieldData)
    (r : grafanaCloudRoleEntry)
    (hmax : (mergeTTLs c d r).MaxTTL ≠ 0)
    (hgt : (mergeTTLs c d r).TTL > (mergeTTLs c d r).MaxTTL) :
    pathRolesWriteTTL s c name d r =
      (.ok (some (ErrorResponse "ttl cannot be greater than max_ttl")), s) := by
  unfold pathRolesWriteTTL
  simp only [if_pos (And.intro hmax hgt)]

/-- C4 (counterexample): a create of role "r" on the empty storage that supplies ttl 10s
and max_ttl 5s (merged values 10s above 5s) and no gc_role returns the plain error
"missing gc_role value", which is not an error response. -/
theorem pathRolesWrite_create_without_gc_role_not_error_response :
    (mergeTTLs true sampleCreateNoGcRole { GrafanaCloudRole := "", TTL := 0, MaxTTL := 0 }).TTL
      = 10000000000 ∧
    (mergeTTLs true sampleCreateNoGcRole { GrafanaCloudRole := "", TTL := 0, MaxTTL := 0 }).MaxTTL
      = 5000000000 ∧
    pathRolesWrite Storage.empty Operation.CreateOperation sampleCreateNoGcRole =
      (.error "missing gc_role value", Storage.empty) ∧
    (pathRolesWrite Storage.empty Operation.CreateOperation
      sampleCreateNoGcRole).1.isErrorResponse = false := by
  decide

/-- C4 (amended): for every role write (create or update) on `roles/<name>` whose values
after merging the supplied fields into the stored role satisfy max_ttl ≠ 0 and
ttl > max_ttl, the stored roles are unchanged and the write is rejected: with an error
response or an error in every case, with an error response whenever the name is not empty,
the storage read succeeds and the write is not a create that omits gc_role, and with the
error "missing gc_role value" when it is such a create. -/
theorem pathRolesWrite_ttl_above_max_rejected (s : Storage) (op : Operation)
    (d : RoleFieldData) (name : String) (hname : d.name = some name)
    (hmax : (mergeTTLs (op == Operation.CreateOperation) d
      ((s.roles.lookup name).getD { GrafanaCloudRole := "", TTL := 0, MaxTTL := 0 })).MaxTTL ≠ 0)
    (hgt : (mergeTTLs (op == Operation.CreateOperation) d
      ((s.roles.lookup name).getD { GrafanaCloudRole := "", TTL := 0, MaxTTL := 0 })).TTL >
      (mergeTTLs (op == Operation.CreateOperation) d
      ((s.roles.lookup name).getD { GrafanaCloudRole := "", TTL := 0, MaxTTL := 0 })).MaxTTL) :
    (pathRolesWrite s op d).2 = s ∧
    ((pathRolesWrite s op d).1.isErrorResponse = true ∨
      ∃ err, (pathRolesWrite s op d).1 = .error err) ∧
    (name ≠ "" → s.getErr = none → ¬ (op = Operation.CreateOperation ∧ d.gc_role = none) →
      (pathRolesWrite s op d).1.isErrorResponse = true) ∧
    (name ≠ "" → s.getErr = none → op = Operation.CreateOperation → d.gc_role = none →
      (pathRolesWrite s op d).1 = .error "missing gc_role value") := by
  by_cases hne : name = ""
  · have h : pathRolesWrite s op d = (.error "missing role name", s) := by
      simp [pathRolesWrite, hname, getRole, hne]
    rw [h]
    exact ⟨rfl, Or.inr ⟨_, rfl⟩, fun h1 => absurd hne h1, fun h1 => absurd hne h1⟩
  · cases hget : s.getErr with
    | some err =>
      have h : pathRolesWrite s op d = (.error err, s) := by
        simp [pathRolesWrite, hname, getRole, hne, hget]
      rw [h]
      exact ⟨rfl, Or.inr ⟨_, rfl⟩, fun _ h1 => by simp at h1, fun _ h1 => by simp at h1⟩
    | none =>
      have hrole := getRole_working s name hne hget
      cases hgc : d.gc_role with
      | some gc =>
        by_cases hv : (grafanaCloudValidRoles.lookup gc).isSome = true
        · have h : pathRolesWrite s op d =
              (.ok (some (ErrorResponse "ttl cannot be greater than max_ttl")), s) := by
            simp only [pathRolesWrite, hname, hrole, hgc, hv, if_true]
            apply pathRolesWriteTTL_rejects
            · rw [(mergeTTLs_gc_role _ _ _ _).2]
              exact hmax
            · rw [(mergeTTLs_gc_role _ _ _ _).1, (mergeTTLs_gc_role _ _ _ _).2]
              exact hgt
          rw [h]
          exact ⟨rfl, Or.inl rfl, fun _ _ _ => rfl, fun _ _ _ h1 => by simp at h1⟩
        · have h : pathRolesWrite s op d =
              (.ok (some (ErrorResponse ("provided gc_role " ++ gc ++ " is not valid"))), s) := by
            simp [pathRolesWrite, hname, hrole, hgc, hv]
          rw [h]
          exact ⟨rfl, Or.inl rfl, fun _ _ _ => rfl, fun _ _ _ h1 => by simp at h1⟩
      | none =>
        by_cases hop : op = Operation.CreateOperation
        · have h : pathRolesWrite s op d = (.error "missing gc_role value", s) := by
            simp [pathRolesWrite, hname, hrole, hgc, hop]
          rw [h]
          exact ⟨rfl, Or.inr ⟨_, rfl⟩, fun _ _ h1 => absurd ⟨hop, rfl⟩ h1, fun _ _ _ _ => rfl⟩
        · have hb : (op == Operation.CreateOperation) = false := by simpa using hop
          have h : pathRolesWrite s op d =
              (.ok (some (ErrorResponse "ttl cannot be greater than max_ttl")), s) := by
            simp only [pathRolesWrite, hname, hrole, hgc, hb]
            rw [hb] at hmax hgt
            simpa using pathRolesWriteTTL_rejects s false name d _ hmax hgt
          rw [h]
          exact ⟨rfl, Or.inl rfl, fun _ _ _ => rfl, fun _ _ h1 => absurd h1 hop⟩

/-- C4 (witness): on the stored role of ttl 120s and max_ttl 3600s, an update that only
raises ttl to 4000s and an update that only lowers max_ttl to 60s are both rejected with
an error response and leave the storage unchanged. -/
theorem pathRolesWrite_ttl_above_max_rejected_witness :
    ((pathRolesWrite sampleStorage Operation.UpdateOperation sampleUpdateTTL).2 = sampleStorage ∧
      (pathRolesWrite sampleStorage Operation.UpdateOperation sampleUpdateTTL).1.isErrorResponse
        = true) ∧
    ((pathRolesWrite sampleStorage Operation.UpdateOperation sampleUpdateMaxTTL).2
        = sampleStorage ∧
      (pathRolesWrite sampleStorage Operation.UpdateOperation
        sampleUpdateMaxTTL).1.isErrorResponse = true) :=
  ⟨⟨(pathRolesWrite_ttl_above_max_rejected sampleStorage Operation.UpdateOperation
        sampleUpdateTTL "viewer-role" rfl (by decide) (by decide)).1,
    (pathRolesWrite_ttl_above_max_rejected sampleStorage Operation.UpdateOperation
        sampleUpdateTTL "viewer-role" rfl (by decide) (by decide)).2.2.1
        (by decide) rfl (by decide)⟩,
   ⟨(pathRolesWrite_ttl_above_max_rejected sampleStorage Operation.UpdateOperation
        sampleUpdateMaxTTL "viewer-role" rfl (by decide) (by decide)).1,
    (pathRolesWrite_ttl_above_max_rejected sampleStorage Operation.UpdateOperation
        sampleUpdateMaxTTL "viewer-role" rfl (by decide) (by decide)).2.2.1
        (by decide) rfl (by decide)⟩⟩

/-! ## C5 and C6: the gc_role of a write and of the stored roles -/

/-- The keys of `grafanaCloudValidRoles` are the five enumerated names. -/
theorem validRoles_lookup_iff (g : String) :
    (grafanaCloudValidRoles.lookup g).isSome = true ↔ g ∈ validRoleNames := by
  simp only [grafanaCloudValidRoles, validRoleNames, List.lookup_cons, List.lookup_nil,
    List.mem_cons, List.mem_singleton, List.not_mem_nil, or_false]
  by_cases h1 : g = "Viewer"
  · simp [h1]
  by_cases h2 : g = "Admin"
  · simp [h2]
  by_cases h3 : g = "Editor"
  · simp [h3]
  by_cases h4 : g = "MetricsPublisher"
  · simp [h4]
  by_cases h5 : g = "PluginPublisher"
  · simp [h5]
  have e1 : (g == "Viewer") = false := by simpa using h1
  have e2 : (g == "Admin") = false := by simpa using h2
  have e3 : (g == "Editor") = false := by simpa using h3
  have e4 : (g == "MetricsPublisher") = false := by simpa using h4
  have e5 : (g == "PluginPublisher") = false := by simpa using h5
  simp [h1, h2, h3, h4, h5, e1, e2, e3, e4, e5]

/-- C5: for every role write (create or update) on `roles/<name>`, with the storage read
succeeding, that supplies a gc_role outside Viewer, Admin, Editor, MetricsPublisher,
PluginPublisher, the handler returns the error response
"provided gc_role <value> is not valid" and the storage is unchanged. -/
theorem pathRolesWrite_invalid_gc_role (s : Storage) (op : Operation) (d : RoleFieldData)
    (name gc : String) (hname : d.name = some name) (hne : name ≠ "")
    (hget : s.getErr = none) (hgc : d.gc_role = some gc) (hinv : gc ∉ validRoleNames) :
    pathRolesWrite s op d =
      (.ok (some (ErrorResponse ("provided gc_role " ++ gc ++ " is not valid"))), s) ∧
    (pathRolesWrite s op d).1.isErrorResponse = true := by
  have hv : ¬ (grafanaCloudValidRoles.lookup gc).isSome = true :=
    fun h => hinv ((validRoles_lookup_iff gc).mp h)
  have h : pathRolesWrite s op d =
      (.ok (some (ErrorResponse ("provided gc_role " ++ gc ++ " is not valid"))), s) := by
    simp [pathRolesWrite, hname, getRole_working s name hne hget, hgc, hv]
  rw [h]
  exact ⟨rfl, rfl⟩

/-- C5 (witness): the empty gc_role on create and the lower-case "viewer" on update. -/
theorem pathRolesWrite_invalid_gc_role_witness :
    (pathRolesWrite Storage.empty Operation.CreateOperation
        { name := some "r", gc_role := some "", ttl := some 120, max_ttl := some 3600 } =
      (.ok (some (ErrorResponse ("provided gc_role " ++ "" ++ " is not valid"))), Storage.empty) ∧
     (pathRolesWrite Storage.empty Operation.CreateOperation
        { name := some "r", gc_role := some "", ttl := some 120,
          max_ttl := some 3600 }).1.isErrorResponse = true) ∧
    (pathRolesWrite sampleStorage Operation.UpdateOperation
        { name := some "viewer-role", gc_role := some "viewer", ttl := none, max_ttl := none } =
      (.ok (some (ErrorResponse ("provided gc_role " ++ "viewer" ++ " is not valid"))),
        sampleStorage) ∧
     (pathRolesWrite sampleStorage Operation.UpdateOperation
        { name := some "viewer-role", gc_role := some "viewer", ttl := none,
          max_ttl := none }).1.isErrorResponse = true) :=
  ⟨pathRolesWrite_invalid_gc_role Storage.empty Operation.CreateOperation _ "r" "" rfl
      (by decide) rfl rfl (by decide),
   pathRolesWrite_invalid_gc_role sampleStorage Operation.UpdateOperation _ "viewer-role"
      "viewer" rfl (by decide) rfl rfl (by decide)⟩

/-- C6 (failing input): on the empty storage, an update of the absent role "r" that
supplies only ttl 60s succeeds and leaves a persisted role whose gc_role is the empty
string, which is none of the valid authorization levels. -/
theorem update_of_absent_role_persists_empty_gc_role :
    pathRolesWrite Storage.empty Operation.UpdateOperation sampleUpdateAbsent =
      (.ok none, runRoleOps Storage.empty
        [RoleOp.write Operation.UpdateOperation sampleUpdateAbsent]) ∧
    (runRoleOps Storage.empty
        [RoleOp.write Operation.UpdateOperation sampleUpdateAbsent]).roles =
      [("r", { GrafanaCloudRole := "", TTL := 60000000000, MaxTTL := 0 })] ∧
    "" ∉ validRoleNames ∧
    (grafanaCloudValidRoles.lookup "").isSome = false ∧
    ¬ (∀ ops : List RoleOp, ∀ kv ∈ (runRoleOps Storage.empty ops).roles,
        kv.2.GrafanaCloudRole ∈ validRoleNames) := by
  refine ⟨by decide, by decide, by decide, by decide, fun h => ?_⟩
  have h1 := h [RoleOp.write Operation.UpdateOperation sampleUpdateAbsent]
    ("r", { GrafanaCloudRole := "", TTL := 60000000000, MaxTTL := 0 }) (by decide)
  exact absurd h1 (by decide)

/-! ## C7: reading a role after writing it -/

/-- Whole seconds within the range of `time.Duration` convert without overflow. -/
theorem secondsToDuration_exact (n : Int) (h1 : -9223372036 ≤ n) (h2 : n ≤ 9223372036) :
    secondsToDuration n = n * 1000000000 := by
  show (n * 1000000000 + 9223372036854775808) % 18446744073709551616 - 9223372036854775808
    = n * 1000000000
  omega

/-- A duration of whole seconds reads back as that number of seconds. -/
theorem Seconds_whole (n : Int) : Duration.Seconds (n * 1000000000) = (n : ℚ) := by
  unfold Duration.Seconds Second
  rw [Int.mul_tdiv_cancel n (by decide), Int.mul_tmod_left]
  simp

/-- Storage faults are not changed by a Put. -/
theorem setRole_getErr (s s1 : Storage) (name : String) (r : grafanaCloudRoleEntry)
    (h : setRole s name r = .ok s1) : s1.getErr = s.getErr := by
  unfold setRole at h
  split at h
  · simp at h
  · simp only [Except.ok.injEq] at h
    subst h
    rfl

/-- The tail of a role write, when it succeeds, has Put the merged entry. -/
theorem pathRolesWriteTTL_ok (s : Storage) (c : Bool) (name : String) (d : RoleFieldData)
    (r : grafanaCloudRoleEntry) (h : (pathRolesWriteTTL s c name d r).1 = .ok none) :
    setRole s name (mergeTTLs c d r) = .ok (pathRolesWriteTTL s c name d r).2 := by
  unfold pathRolesWriteTTL at h ⊢
  simp only at h ⊢
  split
  · rename_i hv
    rw [if_pos hv] at h
    simp at h
  · rename_i hv
    rw [if_neg hv] at h
    split
    · rename_i err he
      simp [he] at h
    · rename_i s1 hs1
      exact hs1

/-- A successful role write has read the stored role under a non-empty name and has Put
the entry obtained by merging the supplied fields into it. -/
theorem pathRolesWrite_ok (s : Storage) (op : Operation) (d : RoleFieldData)
    (h : (pathRolesWrite s op d).1 = .ok none) :
    ∃ name, d.name = some name ∧ name ≠ "" ∧ s.getErr = none ∧
      setRole s name (mergeTTLs (op == Operation.CreateOperation) d
        { (s.roles.lookup name).getD { GrafanaCloudRole := "", TTL := 0, MaxTTL := 0 } with
          GrafanaCloudRole := d.gc_role.getD
            ((s.roles.lookup name).getD
              { GrafanaCloudRole := "", TTL := 0, MaxTTL := 0 }).GrafanaCloudRole })
        = .ok (pathRolesWrite s op d).2 := by
  unfold pathRolesWrite at h ⊢
  split at h
  · simp [ErrorResponse] at h
  · rename_i name hname
    simp only [hname]
    split at h
    · simp at h
    · rename_i found hfound
      have hne := getRole_ok_ne_empty s name found hfound
      have hget : s.getErr = none := by
        cases hg : s.getErr with
        | none => rfl
        | some err => simp [getRole, hne, hg] at hfound
      have hf : found = s.roles.lookup name := by
        rw [getRole_working s name hne hget] at hfound
        simpa using hfound.symm
      subst hf
      refine ⟨name, rfl, hne, hget, ?_⟩
      simp only at h
      split at h
      · rename_i gc hgc
        split at h
        · rename_i hv
          simp only [hgc, hv, if_true, Option.getD_some]
          exact pathRolesWriteTTL_ok _ _ _ _ _ h
        · simp [ErrorResponse] at h
      · rename_i hgc
        split at h
        · simp at h
        · rename_i hc
          have hb : (op == Operation.CreateOperation) = false := by simpa using hc
          rw [hb] at h
          simp only [hgc, hb, Option.getD_none]
          exact pathRolesWriteTTL_ok _ _ _ _ _ h

/-- Reading a role from a working storage returns the stored entry in seconds. -/
theorem pathRolesRead_stored (s : Storage) (name : String) (r : grafanaCloudRoleEntry)
    (hne : name ≠ "") (hget : s.getErr = none) (hr : s.roles.lookup name = some r) :
    pathRolesRead s { name := some name, gc_role := none, ttl := none, max_ttl := none } =
      .ok (some { Data := [("gc_role", Value.str r.GrafanaCloudRole),
                           ("ttl", Value.float (Duration.Seconds r.TTL)),
                           ("max_ttl", Value.float (Duration.Seconds r.MaxTTL))],
                  Secret := none }) := by
  simp [pathRolesRead, getRole_working s name hne hget, hr,
    grafanaCloudRoleEntry.toResponseData]

/-- The tail of a role write Puts the merged entry when the bound holds and Put works. -/
theorem pathRolesWriteTTL_accepts (s : Storage) (c : Bool) (name : String) (d : RoleFieldData)
    (r : grafanaCloudRoleEntry) (hput : s.putErr = none)
    (hv : ¬ ((mergeTTLs c d r).MaxTTL ≠ 0 ∧ (mergeTTLs c d r).TTL > (mergeTTLs c d r).MaxTTL)) :
    pathRolesWriteTTL s c name d r =
      (.ok none, { s with roles := (name, mergeTTLs c d r) ::
                            s.roles.filter (fun kv => kv.1 != name) }) := by
  unfold pathRolesWriteTTL
  simp only [if_neg hv, setRole, hput]

/-- C7: (1) on a working storage, writing under a non-empty name a role with a valid
gc_role and with ttl and max_ttl whole seconds in the range of a duration, ttl at most
max_ttl unless max_ttl is 0, succeeds, and reading the role returns exactly that gc_role,
ttl and max_ttl in seconds; (2) after a successful update of a stored role, the read
returns, for gc_role, ttl and max_ttl alike, the supplied value where one was supplied
and the previously stored value where none was. -/
theorem role_read_after_write :
    (∀ (s : Storage) (op : Operation) (name gc : String) (ttl maxTTL : Int),
      name ≠ "" → s.getErr = none → s.putErr = none → gc ∈ validRoleNames →
      -9223372036 ≤ ttl → ttl ≤ 9223372036 → -9223372036 ≤ maxTTL → maxTTL ≤ 9223372036 →
      (maxTTL ≠ 0 → ttl ≤ maxTTL) →
      (pathRolesWrite s op { name := some name, gc_role := some gc, ttl := some ttl,
                             max_ttl := some maxTTL }).1 = .ok none ∧
      pathRolesRead (pathRolesWrite s op { name := some name, gc_role := some gc,
                                           ttl := some ttl, max_ttl := some maxTTL }).2
          { name := some name, gc_role := none, ttl := none, max_ttl := none } =
        .ok (some { Data := [("gc_role", Value.str gc), ("ttl", Value.float (ttl : ℚ)),
                             ("max_ttl", Value.float (maxTTL : ℚ))],
                    Secret := none })) ∧
    (∀ (s : Storage) (d : RoleFieldData) (name : String) (old : grafanaCloudRoleEntry),
      d.name = some name → s.roles.lookup name = some old →
      (∀ t, d.ttl = some t → -9223372036 ≤ t ∧ t ≤ 9223372036) →
      (∀ t, d.max_ttl = some t → -9223372036 ≤ t ∧ t ≤ 9223372036) →
      (pathRolesWrite s Operation.UpdateOperation d).1 = .ok none →
      pathRolesRead (pathRolesWrite s Operation.UpdateOperation d).2
          { name := some name, gc_role := none, ttl := none, max_ttl := none } =
        .ok (some { Secret := none,
                    Data :=
            [("gc_role", Value.str (d.gc_role.getD old.GrafanaCloudRole)),
             ("ttl", Value.float
                ((d.ttl.map (fun t => (t : ℚ))).getD (Duration.Seconds old.TTL))),
             ("max_ttl", Value.float
                ((d.max_ttl.map (fun t => (t : ℚ))).getD (Duration.Seconds old.MaxTTL)))] })) := by
  constructor
  · intro s op name gc ttl maxTTL hne hget hput hgc h1 h2 h3 h4 hle
    have hv : (grafanaCloudValidRoles.lookup gc).isSome = true :=
      (validRoles_lookup_iff gc).mpr hgc
    have e1 := secondsToDuration_exact ttl h1 h2
    have e2 := secondsToDuration_exact maxTTL h3 h4
    have hm : ∀ (c : Bool) (r0 : grafanaCloudRoleEntry),
        mergeTTLs c { name := some name, gc_role := some gc, ttl := some ttl,
                      max_ttl := some maxTTL } { r0 with GrafanaCloudRole := gc } =
          { GrafanaCloudRole := gc, TTL := ttl * 1000000000, MaxTTL := maxTTL * 1000000000 } := by
      intro c r0
      simp [mergeTTLs, e1, e2]
    have hw : pathRolesWrite s op { name := some name, gc_role := some gc, ttl := some ttl,
                                    max_ttl := some maxTTL } =
        (.ok none, Storage.mk
          ((name, grafanaCloudRoleEntry.mk gc (ttl * 1000000000) (maxTTL * 1000000000)) ::
            s.roles.filter (fun kv => kv.1 != name))
          s.config s.getErr s.putErr s.deleteErr) := by
      simp only [pathRolesWrite, getRole_working s name hne hget, hv, if_true]
      rw [pathRolesWriteTTL_accepts _ _ _ _ _ hput, hm]
      rw [hm]
      intro hbad
      have hbad1 : maxTTL * 1000000000 ≠ 0 := hbad.1
      have hbad2 : ttl * 1000000000 > maxTTL * 1000000000 := hbad.2
      have hz : maxTTL ≠ 0 := by
        intro hz
        rw [hz] at hbad1
        exact hbad1 (by norm_num)
      have := hle hz
      omega
    rw [hw]
    refine ⟨rfl, ?_⟩
    have hrd := pathRolesRead_stored (Storage.mk
        ((name, grafanaCloudRoleEntry.mk gc (ttl * 1000000000) (maxTTL * 1000000000)) ::
          s.roles.filter (fun kv => kv.1 != name))
        s.config s.getErr s.putErr s.deleteErr) name
      (grafanaCloudRoleEntry.mk gc (ttl * 1000000000) (maxTTL * 1000000000))
      hne hget (by simp [List.lookup_cons])
    simp only [Seconds_whole] at hrd
    exact hrd
  · intro s d name old hname hold hT hM hok
    obtain ⟨name1, hname1, hne, hget, hset⟩ := pathRolesWrite_ok s _ d hok
    have hnn : name1 = name := by
      rw [hname] at hname1
      exact (Option.some.inj hname1).symm
    subst hnn
    have hlk := (setRole_lookup s _ name1 _ hset).1
    have hg := setRole_getErr s _ name1 _ hset
    rw [pathRolesRead_stored _ name1 _ hne (hg.trans hget) hlk]
    have hb : (Operation.UpdateOperation == Operation.CreateOperation) = false := by decide
    simp only [hb, hold, Option.getD_some]
    cases httl : d.ttl with
    | none =>
      cases hmax : d.max_ttl with
      | none => simp [mergeTTLs, httl, hmax]
      | some m =>
        have em := secondsToDuration_exact m (hM m hmax).1 (hM m hmax).2
        simp [mergeTTLs, httl, hmax, em, Seconds_whole]
    | some t0 =>
      have et := secondsToDuration_exact t0 (hT t0 httl).1 (hT t0 httl).2
      cases hmax : d.max_ttl with
      | none => simp [mergeTTLs, httl, hmax, et, Seconds_whole]
      | some m =>
        have em := secondsToDuration_exact m (hM m hmax).1 (hM m hmax).2
        simp [mergeTTLs, httl, hmax, et, em, Seconds_whole]

/-- C7 (witness): creating the role of the issuance scenario on the empty storage, and
updating only the ttl of the stored role to 60s. -/
theorem role_read_after_write_witness :
    ((pathRolesWrite Storage.empty Operation.CreateOperation
        { name := some "viewer-role", gc_role := some "Viewer", ttl := some 120,
          max_ttl := some 3600 }).1 = .ok none ∧
      pathRolesRead (pathRolesWrite Storage.empty Operation.CreateOperation
          { name := some "viewer-role", gc_role := some "Viewer", ttl := some 120,
            max_ttl := some 3600 }).2
          { name := some "viewer-role", gc_role := none, ttl := none, max_ttl := none } =
        .ok (some { Data := [("gc_role", Value.str "Viewer"), ("ttl", Value.float ((120 : Int) : ℚ)),
                             ("max_ttl", Value.float ((3600 : Int) : ℚ))],
                    Secret := none })) ∧
    pathRolesRead (pathRolesWrite sampleStorage Operation.UpdateOperation
          { name := some "viewer-role", gc_role := none, ttl := some 60, max_ttl := none }).2
        { name := some "viewer-role", gc_role := none, ttl := none, max_ttl := none } =
      .ok (some { Data := [("gc_role", Value.str "Viewer"), ("ttl", Value.float ((60 : Int) : ℚ)),
                           ("max_ttl", Value.float (Duration.Seconds 3600000000000))],
                  Secret := none }) :=
  ⟨role_read_after_write.1 Storage.empty Operation.CreateOperation "viewer-role" "Viewer" 120
      3600 (by decide) rfl rfl (by decide) (by decide) (by decide) (by decide) (by decide)
      (fun _ => by decide),
   role_read_after_write.2 sampleStorage
      { name := some "viewer-role", gc_role := none, ttl := some 60, max_ttl := none }
      "viewer-role" sampleRole rfl (by decide)
      (fun t ht => by
        have e : t = 60 := (Option.some.inj ht).symm
        subst e
        decide)
      (fun t ht => by simp at ht) (by decide)⟩

/-! ## C8: issuance without a role or without a configuration -/

/-- Issuance from a name under which no role is stored fails with the not-found error,
leaves the client cache alone and sends nothing to the remote. -/
theorem pathCredentialsRead_role_absent (b : grafanaCloudBackend) (s : Storage)
    (remote : Remote) (u : UUID) (d : CredsFieldData) (h : getRole s d.name = .ok none) :
    b.pathCredentialsRead s remote u d = (.error "error retrieving role: role is nil", b, []) := by
  simp [grafanaCloudBackend.pathCredentialsRead, h]

/-- Issuance when the role is stored and no configuration is persisted: the absent
configuration is dereferenced; nothing is sent to the remote. -/
theorem pathCredentialsRead_config_absent (b : grafanaCloudBackend) (s : Storage)
    (remote : Remote) (u : UUID) (d : CredsFieldData) (roleEntry : grafanaCloudRoleEntry)
    (hrole : getRole s d.name = .ok (some roleEntry)) (hcfg : getConfig s = .ok none) :
    (b.pathCredentialsRead s remote u d).1 =
      .panic "invalid memory address or nil pointer dereference" ∧
    (b.pathCredentialsRead s remote u d).2.2 = [] := by
  unfold grafanaCloudBackend.pathCredentialsRead grafanaCloudBackend.createUserCreds
    grafanaCloudBackend.createKey grafanaCloudBackend.getClient NewClient
  simp only [hrole, hcfg]
  cases b.client <;> simp

/-- C8 (failing input): with the role "viewer-role" stored and no configuration persisted,
issuance sends nothing to the remote but does not return a not-found error: it
dereferences the absent configuration and panics. -/
theorem issue_without_config_panics :
    getRole sampleStorageNoConfig "viewer-role" = .ok (some sampleRole) ∧
    getConfig sampleStorageNoConfig = .ok none ∧
    (sampleBackend.pathCredentialsRead sampleStorageNoConfig sampleRemote sampleUUID
      { name := "viewer-role" }).1 = .panic "invalid memory address or nil pointer dereference" ∧
    (sampleBackend.pathCredentialsRead sampleStorageNoConfig sampleRemote sampleUUID
      { name := "viewer-role" }).2.2 = [] := by
  decide

/-! ## C9: the lease bounds of an issued secret -/

/-- C9: when the role is stored, a configuration is persisted, the client is obtained and
the remote creates the requested key, issuance succeeds and the returned secret has TTL
equal to the ttl of the role and MaxTTL equal to its max_ttl whenever these are positive,
and a bound that is 0 in the role is 0 in the secret. -/
theorem issue_lease_bounds (b : grafanaCloudBackend) (s : Storage) (remote : Remote) (u : UUID)
    (d : CredsFieldData) (roleEntry : grafanaCloudRoleEntry) (config : grafanaCloudConfig)
    (c : Client) (rr : RestyResponse)
    (hrole : getRole s d.name = .ok (some roleEntry))
    (hcfg : getConfig s = .ok (some config))
    (hclient : (b.getClient s).1 = .ok c)
    (hremote : remote { Method := "POST", BaseURL := c.BaseURL, AuthToken := c.AuthToken,
                        URL := "orgs/" ++ config.Organisation ++ "/api-keys",
                        Body := some { Name := tokenName d.name u.String,
                                       Role := roleEntry.GrafanaCloudRole,
                                       Organisation := config.Organisation } } = .ok rr)
    (hstatus : rr.StatusCode ≤ 399) :
    ∃ resp sec, (b.pathCredentialsRead s remote u d).1 = .ok (some resp) ∧
      resp.Secret = some sec ∧
      (0 < roleEntry.TTL → sec.TTL = roleEntry.TTL) ∧
      (0 < roleEntry.MaxTTL → sec.MaxTTL = roleEntry.MaxTTL) ∧
      (roleEntry.TTL = 0 → sec.TTL = 0) ∧
      (roleEntry.MaxTTL = 0 → sec.MaxTTL = 0) := by
  have hgc : b.getClient s = (.ok c, (b.getClient s).2) := by rw [← hclient]
  have hst : ¬ rr.StatusCode > 399 := by omega
  have hkey : b.createKey s remote u d.name roleEntry =
      (.ok { Name := rr.Result.Name, Token := rr.Result.Token, User := config.User },
        (b.getClient s).2,
        [{ Method := "POST", BaseURL := c.BaseURL, AuthToken := c.AuthToken,
           URL := "orgs/" ++ config.Organisation ++ "/api-keys",
           Body := some { Name := tokenName d.name u.String,
                          Role := roleEntry.GrafanaCloudRole,
                          Organisation := config.Organisation } }]) := by
    unfold grafanaCloudBackend.createKey
    rw [hgc]
    simp only [hcfg, secretsengine.createKey, Client.CreateAPIKey, hremote, HandleError,
      RestyResponse.IsError, hst, decide_False, Bool.false_eq_true, if_false]
  unfold grafanaCloudBackend.pathCredentialsRead grafanaCloudBackend.createUserCreds
  simp only [hrole, hkey]
  by_cases h1 : roleEntry.TTL > 0 <;> by_cases h2 : roleEntry.MaxTTL > 0 <;>
    simp [h1, h2, Response.setTTL, Response.setMaxTTL, FrameworkSecret.Response,
      grafanaCloudKey]

/-- C9 (witness): the issuance scenario, role ttl 120s and max_ttl 3600s. -/
theorem issue_lease_bounds_witness :
    ∃ resp sec, (sampleBackend.pathCredentialsRead sampleStorage sampleRemote sampleUUID
        { name := "viewer-role" }).1 = .ok (some resp) ∧
      resp.Secret = some sec ∧
      (0 < sampleRole.TTL → sec.TTL = sampleRole.TTL) ∧
      (0 < sampleRole.MaxTTL → sec.MaxTTL = sampleRole.MaxTTL) ∧
      (sampleRole.TTL = 0 → sec.TTL = 0) ∧
      (sampleRole.MaxTTL = 0 → sec.MaxTTL = 0) :=
  issue_lease_bounds sampleBackend sampleStorage sampleRemote sampleUUID
    { name := "viewer-role" } sampleRole
    { Organisation := "acme", Key := "K", URL := "http://x/", User := "" }
    { BaseURL := "http://x/", AuthToken := "K", Timeout := 10 * Second,
      RetryWaitTime := 10 * Second, RetryCount := 6, TempKeyExpires := 60 * Second }
    _ (by decide) (by decide) (by decide) rfl (by decide)

/-! ## C10: the name of the remote key -/

/-- The hex table has no repeated digit. -/
theorem hexDigit_injective : ∀ a b : Fin 16, hexDigit a = hexDigit b → a = b := by
  decide

/-- Hex encoding doubles the length. -/
theorem hexEncode_length (l : List (Fin 256)) : (hexEncode l).length = 2 * l.length := by
  induction l with
  | nil => rfl
  | cons v rest ih => simp only [hexEncode, List.length_cons, ih]; omega

/-- Byte strings of equal length with the same hex encoding are equal. -/
theorem hexEncode_injective (l1 l2 : List (Fin 256)) (h : hexEncode l1 = hexEncode l2)
    (hlen : l1.length = l2.length) : l1 = l2 := by
  induction l1 generalizing l2 with
  | nil =>
    cases l2 with
    | nil => rfl
    | cons w rest => simp at hlen
  | cons v rest ih =>
    cases l2 with
    | nil => simp at hlen
    | cons w rest2 =>
      simp only [hexEncode, List.cons.injEq] at h
      obtain ⟨h1, h2, h3⟩ := h
      have e1 := hexDigit_injective _ _ h1
      have e2 := hexDigit_injective _ _ h2
      simp only [Fin.mk.injEq] at e1 e2
      have hv : v = w := Fin.ext (by omega)
      have hr : rest = rest2 := ih rest2 h3 (by simpa using hlen)
      rw [hv, hr]

/-- The canonical form of a UUID has 36 characters. -/
theorem UUID.String_length (u : UUID) : u.String.length = 36 := by
  simp [UUID.String, String.length, hexEncode_length]

/-- The canonical form determines the UUID. -/
theorem UUID.String_injective (u1 u2 : UUID) (h : u1.String = u2.String) : u1 = u2 := by
  have hd := congrArg String.data h
  simp only [UUID.String] at hd
  obtain ⟨ha, hd⟩ := List.append_inj hd (by simp only [hexEncode_length, List.length_cons,
    List.length_nil])
  have hd := List.tail_eq_of_cons_eq hd
  obtain ⟨hb, hd⟩ := List.append_inj hd (by simp only [hexEncode_length, List.length_cons,
    List.length_nil])
  have hd := List.tail_eq_of_cons_eq hd
  obtain ⟨hc, hd⟩ := List.append_inj hd (by simp only [hexEncode_length, List.length_cons,
    List.length_nil])
  have hd := List.tail_eq_of_cons_eq hd
  obtain ⟨he, hd⟩ := List.append_inj hd (by simp only [hexEncode_length, List.length_cons,
    List.length_nil])
  have hf := List.tail_eq_of_cons_eq hd
  have ea := hexEncode_injective _ _ ha rfl
  have eb := hexEncode_injective _ _ hb rfl
  have ec := hexEncode_injective _ _ hc rfl
  have ee := hexEncode_injective _ _ he rfl
  have ef := hexEncode_injective _ _ hf rfl
  simp only [List.cons.injEq, and_true] at ea eb ec ee ef
  funext i
  fin_cases i
  · exact ea.1
  · exact ea.2.1
  · exact ea.2.2.1
  · exact ea.2.2.2
  · exact eb.1
  · exact eb.2
  · exact ec.1
  · exact ec.2
  · exact ee.1
  · exact ee.2
  · exact ef.1
  · exact ef.2.1
  · exact ef.2.2.1
  · exact ef.2.2.2.1
  · exact ef.2.2.2.2.1
  · exact ef.2.2.2.2.2

/-- Names built from suffixes of equal length agree only when their parts agree. -/
theorem tokenName_injective (r1 r2 s1 s2 : String) (hlen : s1.length = s2.length)
    (h : tokenName r1 s1 = tokenName r2 s2) : r1 = r2 ∧ s1 = s2 := by
  have hd : (r1.data ++ ['_']) ++ s1.data = (r2.data ++ ['_']) ++ s2.data := by
    have := congrArg String.data h
    simpa [tokenName, String.data_append] using this
  have hl : s1.data.length = s2.data.length := hlen
  obtain ⟨ha, hb⟩ := List.append_inj' hd hl
  have hr : r1.data = r2.data := List.append_cancel_right ha
  exact ⟨String.ext hr, String.ext hb⟩

/-- C10: the one request `createKey` sends asks for the key name roleName ++ "_" ++ suffix,
the suffix being the canonical form of the UUID drawn; that form has 36 characters; the
naming is injective in the role name and the UUID; and issuances for one role with
pairwise distinct UUIDs ask for pairwise distinct names. -/
theorem createKey_name_injective :
    (∀ (c : Client) (remote : Remote) (u : UUID) (organisation roleName user gcRole : String),
      (createKey c remote u organisation roleName user gcRole).2 =
        [{ Method := "POST", BaseURL := c.BaseURL, AuthToken := c.AuthToken,
           URL := "orgs/" ++ organisation ++ "/api-keys",
           Body := some { Name := roleName ++ "_" ++ u.String, Role := gcRole,
                          Organisation := organisation } }]) ∧
    (∀ u : UUID, u.String.length = 36) ∧
    (∀ (r1 r2 : String) (u1 u2 : UUID),
      r1 ++ "_" ++ u1.String = r2 ++ "_" ++ u2.String → r1 = r2 ∧ u1 = u2) ∧
    (∀ (r : String) (us : List UUID), us.Nodup →
      (us.map (fun u => r ++ "_" ++ u.String)).Nodup) := by
  have hinj : ∀ (r1 r2 : String) (u1 u2 : UUID),
      r1 ++ "_" ++ u1.String = r2 ++ "_" ++ u2.String → r1 = r2 ∧ u1 = u2 := by
    intro r1 r2 u1 u2 h
    have hlen : u1.String.length = u2.String.length := by
      rw [UUID.String_length, UUID.String_length]
    obtain ⟨hr, hs⟩ := tokenName_injective r1 r2 _ _ hlen h
    exact ⟨hr, UUID.String_injective u1 u2 hs⟩
  refine ⟨?_, UUID.String_length, hinj, ?_⟩
  · intro c remote u organisation roleName user gcRole
    unfold createKey Client.CreateAPIKey tokenName
    simp only
    split <;> rename_i heq <;> split at heq <;>
      first
      | (simp only [Prod.mk.injEq] at heq; exact heq.2.symm)
      | (split at heq <;> simp only [Prod.mk.injEq] at heq <;> exact heq.2.symm)
  · intro r us hnd
    exact hnd.map (fun u1 u2 h => (hinj r r u1 u2 h).2)

/-- C10 (witness): two issuances for "viewer-role" with two distinct UUIDs. -/
theorem createKey_name_injective_witness :
    "viewer-role" ++ "_" ++ sampleUUID.String = "viewer-role_03142536-4758-697a-8b9c-adbecfe0f102" ∧
    sampleUUID.String.length = 36 ∧
    ([sampleUUID, sampleUUID2].map (fun u => "viewer-role" ++ "_" ++ u.String)).Nodup :=
  ⟨by decide, createKey_name_injective.2.1 sampleUUID,
   createKey_name_injective.2.2.2 "viewer-role" [sampleUUID, sampleUUID2] (by
    simp only [List.nodup_cons, List.mem_singleton, List.not_mem_nil, not_false_eq_true,
      List.nodup_nil, and_true]
    intro h
    have := congrFun h 0
    revert this
    decide)⟩

/-! ## C11 and C12: revocation -/

/-- With a configuration persisted the client is obtained. -/
theorem getClient_fst_eq (b : grafanaCloudBackend) (s : Storage) (c : Client)
    (h : (b.getClient s).1 = .ok c) : b.getClient s = (.ok c, (b.getClient s).2) := by
  rw [← h]

/-- C11: for every revoke whose metadata holds the key name, with a configuration
persisted and the client obtained, exactly one delete request is sent, for the
organisation of the persisted configuration and the recorded key name; the revoke
succeeds if and only if the remote answers that request with a status below 400; a
transport error and an HTTP status of 400 or above are each returned as the error of
the revoke. -/
theorem keyRevoke_deletes_once (b : grafanaCloudBackend) (s : Storage) (remote : Remote)
    (secret : Secret) (config : grafanaCloudConfig) (c : Client) (name : String)
    (hname : secret.InternalData.lookup "name" = some (Value.str name))
    (hcfg : getConfig s = .ok (some config))
    (hclient : (b.getClient s).1 = .ok c) :
    (b.keyRevoke s remote secret).2.2 =
      [Request.mk "DELETE" c.BaseURL c.AuthToken
        ("orgs/" ++ config.Organisation ++ "/api-keys/" ++ name) none] ∧
    ((b.keyRevoke s remote secret).1.isSuccess = true ↔
      ∃ rr, remote (Request.mk "DELETE" c.BaseURL c.AuthToken
        ("orgs/" ++ config.Organisation ++ "/api-keys/" ++ name) none) = .ok rr ∧
        rr.StatusCode ≤ 399) ∧
    (∀ err, remote (Request.mk "DELETE" c.BaseURL c.AuthToken
        ("orgs/" ++ config.Organisation ++ "/api-keys/" ++ name) none) = .error err →
      (b.keyRevoke s remote secret).1 =
        .error ("failed to delete Grafana Cloud Portal API key: " ++ err)) ∧
    (∀ rr, remote (Request.mk "DELETE" c.BaseURL c.AuthToken
        ("orgs/" ++ config.Organisation ++ "/api-keys/" ++ name) none) = .ok rr →
      400 ≤ rr.StatusCode →
      (b.keyRevoke s remote secret).1 =
        .error ("failed to delete Grafana Cloud Portal API key. Status code " ++
          toString rr.StatusCode ++ ", response: " ++ rr.Body)) := by
  have hgc := getClient_fst_eq b s c hclient
  unfold grafanaCloudBackend.keyRevoke
  rw [hgc]
  simp only [hcfg, hname, Client.DeleteAPIKey]
  cases hr : remote (Request.mk "DELETE" c.BaseURL c.AuthToken
      ("orgs/" ++ config.Organisation ++ "/api-keys/" ++ name) none) with
  | error err =>
    simp [HandleError, Result.isSuccess]
  | ok rr =>
    by_cases hst : rr.StatusCode > 399
    · have h400 : ¬ rr.StatusCode ≤ 399 := by omega
      simp [HandleError, RestyResponse.IsError, hst, Result.isSuccess, HttpError, h400]
    · have h399 : rr.StatusCode ≤ 399 := by omega
      have h400 : ¬ 400 ≤ rr.StatusCode := by omega
      have hlt : rr.StatusCode < 400 := by omega
      simp [HandleError, RestyResponse.IsError, hst, Result.isSuccess, Response.IsError,
        h399, hlt]

/-- C11 (witness): revoking the sample lease against the sample storage. -/
theorem keyRevoke_deletes_once_witness :
    (sampleBackend.keyRevoke sampleStorage sampleRemote sampleLease).2.2 =
      [Request.mk "DELETE" sampleClient.BaseURL sampleClient.AuthToken
        ("orgs/" ++ "acme" ++ "/api-keys/" ++ "viewer-role_x") none] ∧
    (sampleBackend.keyRevoke sampleStorage sampleRemote sampleLease).1.isSuccess = true :=
  ⟨(keyRevoke_deletes_once sampleBackend sampleStorage sampleRemote sampleLease
      { Organisation := "acme", Key := "K", URL := "http://x/", User := "" } sampleClient
      "viewer-role_x" (by decide) (by decide) (by decide)).1,
   (keyRevoke_deletes_once sampleBackend sampleStorage sampleRemote sampleLease
      { Organisation := "acme", Key := "K", URL := "http://x/", User := "" } sampleClient
      "viewer-role_x" (by decide) (by decide) (by decide)).2.1.mpr ⟨_, rfl, by decide⟩⟩

/-- A revoke whose metadata has no string under "name", with a configuration persisted,
panics on the type assertion and sends nothing. -/
theorem keyRevoke_without_name (b : grafanaCloudBackend) (s : Storage) (remote : Remote)
    (secret : Secret) (config : grafanaCloudConfig)
    (hname : ∀ name, secret.InternalData.lookup "name" ≠ some (Value.str name))
    (hcfg : getConfig s = .ok (some config)) :
    (∃ msg, (b.keyRevoke s remote secret).1 = .panic msg) ∧
    (b.keyRevoke s remote secret).2.2 = [] := by
  have hget : s.getErr = none := by
    cases hg : s.getErr with
    | none => rfl
    | some err => simp [getConfig, hg] at hcfg
  unfold grafanaCloudBackend.keyRevoke grafanaCloudBackend.getClient NewClient
  cases hb : b.client <;> simp only [hcfg] <;>
    (cases hl : secret.InternalData.lookup "name" with
     | none => exact ⟨⟨_, rfl⟩, rfl⟩
     | some v =>
       cases v with
       | str n => exact absurd hl (hname n)
       | float q => exact ⟨⟨_, rfl⟩, rfl⟩
       | int n => exact ⟨⟨_, rfl⟩, rfl⟩
       | nil => exact ⟨⟨_, rfl⟩, rfl⟩)

/-- C12 (failing input): with the sample configuration persisted, a revoke whose
metadata has no "name", and one whose "name" is a number, each panic on the type
assertion instead of returning a missing-metadata error; no delete request is sent. -/
theorem keyRevoke_missing_name_panics :
    sampleLeaseNoName.InternalData.lookup "name" = none ∧
    (sampleBackend.keyRevoke sampleStorage sampleRemote sampleLeaseNoName).1 =
      .panic "interface conversion: interface {} is nil, not string" ∧
    (sampleBackend.keyRevoke sampleStorage sampleRemote sampleLeaseNoName).2.2 = [] ∧
    sampleLeaseNumericName.InternalData.lookup "name" = some (Value.int 7) ∧
    (sampleBackend.keyRevoke sampleStorage sampleRemote sampleLeaseNumericName).1 =
      .panic "interface conversion: interface {} is not string" ∧
    (sampleBackend.keyRevoke sampleStorage sampleRemote sampleLeaseNumericName).2.2 = [] := by
  decide

/-! ## C13: what a create of the configuration requires -/

/-- A config write either returns an error and leaves backend and storage as they were,
or succeeds, having read and Put on a working storage: it resets the cache and persists
the merged configuration, whose url, if supplied, is absolute; a success on an absent
configuration is a create, and a create has a non-empty organisation and key and a
supplied url. -/
theorem pathConfigWrite_cases (b : grafanaCloudBackend)
    (parseRest : String → String → Option GoError) (s : Storage) (op : Operation)
    (data : ConfigFieldData) :
    (∃ err, b.pathConfigWrite parseRest s op data = (.error err, b, s)) ∨
    (b.pathConfigWrite parseRest s op data =
        (.ok none, b.reset, Storage.mk s.roles (some (mergedConfig s data)) s.getErr s.putErr
          s.deleteErr) ∧
      s.getErr = none ∧ s.putErr = none ∧
      (s.config = none → op = Operation.CreateOperation) ∧
      (op = Operation.CreateOperation →
        (mergedConfig s data).Organisation ≠ "" ∧ (mergedConfig s data).Key ≠ "" ∧
        data.url ≠ none) ∧
      (∀ u, data.url = some u → isAbsoluteRequestURI parseRest u = true)) := by
  unfold grafanaCloudBackend.pathConfigWrite grafanaCloudBackend.pathConfigWriteUser getConfig
  cases hget : s.getErr with
  | some e => exact Or.inl ⟨e, rfl⟩
  | none =>
    simp only []
    repeat' split
    all_goals first
      | exact Or.inl ⟨_, rfl⟩
      | (right
         cases hc : s.config <;> cases ho : data.organisation <;> cases hk : data.key <;>
           cases hu : data.url <;> cases hus : data.user <;>
           simp_all [mergedConfig, configOrZero, isAbsoluteRequestURI] <;> tauto)

/-- C13 (counterexample): with the configuration of organisation acme stored, a create
that supplies key and url but no organisation succeeds and persists a configuration
that keeps the stored organisation. -/
theorem pathConfigWrite_create_keeps_stored_organisation :
    sampleCreateWithoutOrganisation.organisation = none ∧
    sampleBackend.pathConfigWrite acceptRest sampleStorage Operation.CreateOperation
        sampleCreateWithoutOrganisation =
      (.ok none, sampleBackend,
        { sampleStorage with
          config := some { Organisation := "acme", Key := "K2", URL := "http://y/",
                           User := "" } }) := by
  decide

/-- C13 (amended): every create of the configuration in which url is not supplied or is
supplied as the empty string, or organisation or key is supplied as the empty string, or
organisation or key is not supplied while no non-empty value for it is stored, returns
an error (the error of the storage read, or one of the four validation errors) and
leaves backend and storage as they were. -/
theorem pathConfigWrite_create_rejects (b : grafanaCloudBackend)
    (parseRest : String → String → Option GoError) (s : Storage) (data : ConfigFieldData)
    (h : data.url = none ∨ data.url = some "" ∨
      data.organisation = some "" ∨ data.key = some "" ∨
      (data.organisation = none ∧ (configOrZero s).Organisation = "") ∨
      (data.key = none ∧ (configOrZero s).Key = "")) :
    ∃ err, b.pathConfigWrite parseRest s Operation.CreateOperation data = (.error err, b, s) ∧
      (s.getErr = some err ∨
        err ∈ ["missing organisation in configuration", "missing key in configuration",
               "missing url in configuration", "invalid url in configuration"]) := by
  have hempty : ParseRequestURI parseRest "" = .error "empty url" := by
    simp [ParseRequestURI, stringContainsCTLByte]
  unfold grafanaCloudBackend.pathConfigWrite grafanaCloudBackend.pathConfigWriteUser getConfig
  cases hget : s.getErr with
  | some e => exact ⟨e, rfl, Or.inl rfl⟩
  | none =>
    have hb : (Operation.CreateOperation == Operation.CreateOperation) = true := by decide
    simp only [hb, Bool.not_true, Bool.and_false, Bool.false_eq_true, if_false, and_true,
      if_true]
    cases hc : s.config <;> cases ho : data.organisation <;> cases hk : data.key <;>
      cases hu : data.url <;> simp only [Option.getD_none, Option.getD_some] <;>
      repeat' split
    all_goals first
      | (refine ⟨_, rfl, Or.inr ?_⟩; simp; done)
      | (exfalso; simp_all [configOrZero])

/-- C13 (witness): on the empty storage a create without organisation, and on the
sample storage a create with an empty key, are refused and change nothing. -/
theorem pathConfigWrite_create_rejects_witness :
    (∃ err, sampleBackend.pathConfigWrite acceptRest Storage.empty Operation.CreateOperation
        sampleCreateWithoutOrganisation = (.error err, sampleBackend, Storage.empty) ∧
      (Storage.empty.getErr = some err ∨
        err ∈ ["missing organisation in configuration", "missing key in configuration",
               "missing url in configuration", "invalid url in configuration"])) ∧
    (∃ err, sampleBackend.pathConfigWrite acceptRest sampleStorage Operation.CreateOperation
        { organisation := some "testorg", key := some "", url := some "http://y/",
          user := none } = (.error err, sampleBackend, sampleStorage) ∧
      (sampleStorage.getErr = some err ∨
        err ∈ ["missing organisation in configuration", "missing key in configuration",
               "missing url in configuration", "invalid url in configuration"])) :=
  ⟨pathConfigWrite_create_rejects sampleBackend acceptRest Storage.empty
      sampleCreateWithoutOrganisation (Or.inr (Or.inr (Or.inr (Or.inr (Or.inl ⟨rfl, rfl⟩))))),
   pathConfigWrite_create_rejects sampleBackend acceptRest sampleStorage
      { organisation := some "testorg", key := some "", url := some "http://y/",
        user := none } (Or.inr (Or.inr (Or.inr (Or.inl rfl))))⟩

/-! ## C14: the persisted url is absolute -/

/-- A config write that supplies a url which does not parse or is not absolute returns
an error and changes nothing. -/
theorem pathConfigWrite_bad_url (b : grafanaCloudBackend)
    (parseRest : String → String → Option GoError) (s : Storage) (op : Operation)
    (data : ConfigFieldData) (u : String) (hu : data.url = some u)
    (hbad : isAbsoluteRequestURI parseRest u = false) :
    ∃ err, b.pathConfigWrite parseRest s op data = (.error err, b, s) := by
  rcases pathConfigWrite_cases b parseRest s op data with h | ⟨-, -, -, -, -, h⟩
  · exact h
  · rw [h u hu] at hbad
    exact absurd hbad (by decide)

/-- Each event keeps the url of the persisted configuration absolute. -/
theorem ConfigOp.apply_url (parseRest : String → String → Option GoError)
    (st : grafanaCloudBackend × Storage) (ev : ConfigOp)
    (h : ∀ cfg, st.2.config = some cfg → isAbsoluteRequestURI parseRest cfg.URL = true) :
    ∀ cfg, (ev.apply parseRest st).2.config = some cfg →
      isAbsoluteRequestURI parseRest cfg.URL = true := by
  cases ev with
  | write op data =>
    rcases pathConfigWrite_cases st.1 parseRest st.2 op data with
      ⟨err, he⟩ | ⟨he, -, -, hnone, hcreate, hurl⟩
    · simp only [ConfigOp.apply, he]
      exact h
    · simp only [ConfigOp.apply, he]
      intro cfg hcfg
      simp only [Option.some.injEq] at hcfg
      subst hcfg
      cases hu : data.url with
      | some u =>
        simp only [mergedConfig, hu, Option.getD_some]
        exact hurl u hu
      | none =>
        have hop : op ≠ Operation.CreateOperation := fun e => (hcreate e).2.2 hu
        cases hc : st.2.config with
        | none => exact absurd (hnone hc) hop
        | some old =>
          simp only [mergedConfig, hu, Option.getD_none, configOrZero, hc, Option.getD_some]
          exact h old hc
  | delete =>
    simp only [ConfigOp.apply, grafanaCloudBackend.pathConfigDelete]
    split
    · exact h
    · intro cfg hcfg
      simp at hcfg
  | invalidate key => exact h
  | getClient => exact h
  | faults g p dl => exact h

/-- The url of the persisted configuration stays absolute along every execution. -/
theorem runConfigOps_url (parseRest : String → String → Option GoError) (ops : List ConfigOp)
    (st : grafanaCloudBackend × Storage)
    (h : ∀ cfg, st.2.config = some cfg → isAbsoluteRequestURI parseRest cfg.URL = true) :
    ∀ cfg, (runConfigOps parseRest st ops).2.config = some cfg →
      isAbsoluteRequestURI parseRest cfg.URL = true := by
  induction ops generalizing st with
  | nil => exact h
  | cons ev rest ih => exact ih _ (ConfigOp.apply_url parseRest st ev h)

/-- The url "/addd" has no scheme, whatever the parsing of its path ends with. -/
theorem addd_not_absolute (parseRest : String → String → Option GoError) :
    isAbsoluteRequestURI parseRest "/addd" = false := by
  have h1 : stringContainsCTLByte "/addd" = false := by decide
  have h2 : getScheme "/addd" = .ok ("", "/addd") := by decide
  have h3 : (String.mk ((("/addd" : String).data).takeWhile (fun c => c != '?'))) = "/addd" := by
    decide
  have h4 : (String.mk ((("" : String).data).map Char.toLower)) = "" := by decide
  have h5 : ("/addd" : String).data.head? = some '/' := by decide
  unfold isAbsoluteRequestURI ParseRequestURI
  simp only [h1, h2, h3, h4, h5, Bool.false_eq_true, if_false, if_true]
  have e1 : ¬ ("/addd" : String) = "" := by decide
  have e2 : ¬ ("/addd" : String) = "*" := by decide
  simp only [e1, e2, if_false]
  cases parseRest "" "/addd" <;> simp [URL.IsAbs]

/-- C14: in every state reached from the empty storage by config writes, config deletes,
invalidations, client lookups and storage faults, a persisted configuration has a url
that parses as an absolute URI; a write (create or update) supplying a url that does not
parse or is not absolute returns an error and changes nothing; "/addd", "abcde" and ""
are such urls. -/
theorem config_url_absolute (parseRest : String → String → Option GoError) :
    (∀ (ops : List ConfigOp) (cfg : grafanaCloudConfig),
      (runConfigOps parseRest ({ client := none }, Storage.empty) ops).2.config = some cfg →
      isAbsoluteRequestURI parseRest cfg.URL = true) ∧
    (∀ (b : grafanaCloudBackend) (s : Storage) (op : Operation) (data : ConfigFieldData)
      (u : String), data.url = some u → isAbsoluteRequestURI parseRest u = false →
      ∃ err, b.pathConfigWrite parseRest s op data = (.error err, b, s)) ∧
    isAbsoluteRequestURI parseRest "/addd" = false ∧
    isAbsoluteRequestURI parseRest "abcde" = false ∧
    isAbsoluteRequestURI parseRest "" = false := by
  refine ⟨fun ops => runConfigOps_url parseRest ops _ (fun cfg h => by simp [Storage.empty] at h),
    fun b s op data u hu hbad => pathConfigWrite_bad_url b parseRest s op data u hu hbad,
    addd_not_absolute parseRest, ?_, ?_⟩
  · have h1 : stringContainsCTLByte "abcde" = false := by decide
    have h2 : getScheme "abcde" = .ok ("", "abcde") := by decide
    have h3 : (String.mk ((("abcde" : String).data).takeWhile (fun c => c != '?'))) = "abcde" := by
      decide
    have h4 : (String.mk ((("" : String).data).map Char.toLower)) = "" := by decide
    have h5 : ¬ ("abcde" : String).data.head? = some '/' := by decide
    have e1 : ¬ ("abcde" : String) = "" := by decide
    have e2 : ¬ ("abcde" : String) = "*" := by decide
    unfold isAbsoluteRequestURI ParseRequestURI
    simp [h1, h2, h3, h4, h5, e1, e2]
  · simp [isAbsoluteRequestURI, ParseRequestURI, stringContainsCTLByte]

/-- C14 (witness): create, then update with the url "abcde", with every path accepted. -/
theorem config_url_absolute_witness :
    (∀ cfg, (runConfigOps acceptRest ({ client := none }, Storage.empty)
        [ConfigOp.write Operation.CreateOperation sampleConfigCreate,
         ConfigOp.write Operation.UpdateOperation sampleUpdateBadURL]).2.config = some cfg →
      isAbsoluteRequestURI acceptRest cfg.URL = true) ∧
    (∃ err, sampleBackend.pathConfigWrite acceptRest sampleStorage Operation.UpdateOperation
      sampleUpdateBadURL = (.error err, sampleBackend, sampleStorage)) :=
  ⟨(config_url_absolute acceptRest).1 _,
   (config_url_absolute acceptRest).2.1 sampleBackend sampleStorage Operation.UpdateOperation
      sampleUpdateBadURL "abcde" rfl (config_url_absolute acceptRest).2.2.2.1⟩

/-! ## C15 and C16: failed and successful config writes -/

/-- C15: every config write (create or update) that does not succeed returns an error
and leaves the storage, hence what a read of the configuration returns, and the cached
client exactly as they were. -/
theorem pathConfigWrite_atomic (b : grafanaCloudBackend)
    (parseRest : String → String → Option GoError) (s : Storage) (op : Operation)
    (data : ConfigFieldData)
    (h : (b.pathConfigWrite parseRest s op data).1 ≠ .ok none) :
    (∃ err, (b.pathConfigWrite parseRest s op data).1 = .error err) ∧
    (b.pathConfigWrite parseRest s op data).2.2 = s ∧
    (b.pathConfigWrite parseRest s op data).2.1 = b ∧
    pathConfigRead (b.pathConfigWrite parseRest s op data).2.2 = pathConfigRead s := by
  rcases pathConfigWrite_cases b parseRest s op data with ⟨err, he⟩ | ⟨he, -⟩
  · rw [he]
    exact ⟨⟨err, rfl⟩, rfl, rfl, rfl⟩
  · rw [he] at h
    exact absurd rfl h

/-- C15 (witness): an update with the url "abcde" on the sample storage, with the sample
client cached: the four stored fields read back unchanged and the client stays cached. -/
theorem pathConfigWrite_atomic_witness :
    (∃ err, (grafanaCloudBackend.pathConfigWrite { client := some sampleClient } acceptRest
        sampleStorage Operation.UpdateOperation sampleUpdateBadURL).1 = .error err) ∧
    (grafanaCloudBackend.pathConfigWrite { client := some sampleClient } acceptRest
        sampleStorage Operation.UpdateOperation sampleUpdateBadURL).2.2 = sampleStorage ∧
    (grafanaCloudBackend.pathConfigWrite { client := some sampleClient } acceptRest
        sampleStorage Operation.UpdateOperation sampleUpdateBadURL).2.1 =
      { client := some sampleClient } ∧
    pathConfigRead (grafanaCloudBackend.pathConfigWrite { client := some sampleClient }
        acceptRest sampleStorage Operation.UpdateOperation sampleUpdateBadURL).2.2 =
      pathConfigRead sampleStorage :=
  pathConfigWrite_atomic { client := some sampleClient } acceptRest sampleStorage
    Operation.UpdateOperation sampleUpdateBadURL (by decide)

/-- C16: after every successful config write, reading the configuration returns exactly
the four fields organisation, key, url and user, each the supplied value when one was
supplied and otherwise the stored value, the empty string when nothing was stored. -/
theorem config_read_after_write (b : grafanaCloudBackend)
    (parseRest : String → String → Option GoError) (s : Storage) (op : Operation)
    (data : ConfigFieldData)
    (h : (b.pathConfigWrite parseRest s op data).1 = .ok none) :
    pathConfigRead (b.pathConfigWrite parseRest s op data).2.2 =
      .ok (some (Response.mk
        [("organisation", Value.str (data.organisation.getD (configOrZero s).Organisation)),
         ("key", Value.str (data.key.getD (configOrZero s).Key)),
         ("url", Value.str (data.url.getD (configOrZero s).URL)),
         ("user", Value.str (data.user.getD (configOrZero s).User))] none)) := by
  rcases pathConfigWrite_cases b parseRest s op data with ⟨err, he⟩ | ⟨he, hget, -⟩
  · rw [he] at h
    simp at h
  · rw [he]
    simp [pathConfigRead, getConfig, hget, mergedConfig]

/-- C16 (witness): a create without user on the empty storage reads back user "". -/
theorem config_read_after_write_witness :
    pathConfigRead (sampleBackend.pathConfigWrite acceptRest Storage.empty
        Operation.CreateOperation sampleConfigCreate).2.2 =
      .ok (some (Response.mk
        [("organisation", Value.str "testorg"), ("key", Value.str "1234567"),
         ("url", Value.str "http://localhost:19090/"), ("user", Value.str "")] none)) :=
  config_read_after_write sampleBackend acceptRest Storage.empty Operation.CreateOperation
    sampleConfigCreate (by decide)

/-! ## C17: the cached client and the persisted configuration -/

/-- What `getClient` does on an empty cache with a working storage: it builds the client
from the persisted configuration, or from the zero configuration, and caches it. -/
theorem getClient_build (b : grafanaCloudBackend) (s : Storage) (hb : b.client = none)
    (hget : s.getErr = none) :
    ∃ c, NewClient (configOrZero s).URL (configOrZero s).Key = .ok c ∧
      b.getClient s = (.ok c, { client := some c }) := by
  refine ⟨_, rfl, ?_⟩
  simp [grafanaCloudBackend.getClient, hb, getConfig, hget, NewClient, configOrZero]

/-- Each event keeps the cached client, if any, equal to the client built from the
persisted configuration. -/
theorem ConfigOp.apply_coherent (parseRest : String → String → Option GoError)
    (st : grafanaCloudBackend × Storage) (ev : ConfigOp)
    (h : ∀ c, st.1.client = some c →
      NewClient (configOrZero st.2).URL (configOrZero st.2).Key = .ok c) :
    ∀ c, (ev.apply parseRest st).1.client = some c →
      NewClient (configOrZero (ev.apply parseRest st).2).URL
        (configOrZero (ev.apply parseRest st).2).Key = .ok c := by
  cases ev with
  | write op data =>
    rcases pathConfigWrite_cases st.1 parseRest st.2 op data with ⟨err, he⟩ | ⟨he, -⟩
    · simp only [ConfigOp.apply, he]
      exact h
    · simp only [ConfigOp.apply, he, grafanaCloudBackend.reset]
      intro c hc
      simp at hc
  | delete =>
    simp only [ConfigOp.apply, grafanaCloudBackend.pathConfigDelete]
    split
    · exact h
    · intro c hc
      simp [grafanaCloudBackend.reset] at hc
  | invalidate key =>
    simp only [ConfigOp.apply, grafanaCloudBackend.invalidate]
    split
    · intro c hc
      simp [grafanaCloudBackend.reset] at hc
    · exact h
  | getClient =>
    simp only [ConfigOp.apply]
    cases hb : st.1.client with
    | some c0 =>
      have e : st.1.getClient st.2 = (.ok c0, st.1) := by
        simp [grafanaCloudBackend.getClient, hb]
      rw [e]
      exact h
    | none =>
      cases hget : st.2.getErr with
      | some err =>
        have e : st.1.getClient st.2 = (.error err, st.1) := by
          simp [grafanaCloudBackend.getClient, hb, getConfig, hget]
        rw [e]
        exact h
      | none =>
        obtain ⟨c, hc, e⟩ := getClient_build st.1 st.2 hb hget
        rw [e]
        intro c1 hc1
        simp only [Option.some.injEq] at hc1
        rw [← hc1]
        exact hc
  | faults g p dl => exact h

/-- The cached client stays coherent along every execution. -/
theorem runConfigOps_coherent (parseRest : String → String → Option GoError)
    (ops : List ConfigOp) (st : grafanaCloudBackend × Storage)
    (h : ∀ c, st.1.client = some c →
      NewClient (configOrZero st.2).URL (configOrZero st.2).Key = .ok c) :
    ∀ c, (runConfigOps parseRest st ops).1.client = some c →
      NewClient (configOrZero (runConfigOps parseRest st ops).2).URL
        (configOrZero (runConfigOps parseRest st ops).2).Key = .ok c := by
  induction ops generalizing st with
  | nil => exact h
  | cons ev rest ih => exact ih _ (ConfigOp.apply_coherent parseRest st ev h)

/-- C17: along every sequential execution of config writes, config deletes,
invalidations, `getClient` calls and storage faults that starts with an empty cache, a
cached client is the client `NewClient` builds from the persisted configuration (the zero
configuration when none is persisted): its base url is the configured url with a
trailing "/" ensured and its token the configured key. Every successful config write
and every successful delete leaves the cache empty, `getClient` after a successful write
returns the client built from the written configuration, and `getClient` after a
successful delete returns the client built from the empty configuration. -/
theorem client_cache_coherent (parseRest : String → String → Option GoError) :
    (∀ (s0 : Storage) (ops : List ConfigOp) (c : Client),
      (runConfigOps parseRest ({ client := none }, s0) ops).1.client = some c →
      NewClient (configOrZero (runConfigOps parseRest ({ client := none }, s0) ops).2).URL
        (configOrZero (runConfigOps parseRest ({ client := none }, s0) ops).2).Key = .ok c ∧
      c.BaseURL =
        (if HasSuffix (configOrZero (runConfigOps parseRest ({ client := none }, s0) ops).2).URL
            "/" then
          (configOrZero (runConfigOps parseRest ({ client := none }, s0) ops).2).URL
        else (configOrZero (runConfigOps parseRest ({ client := none }, s0) ops).2).URL ++ "/") ∧
      c.AuthToken = (configOrZero (runConfigOps parseRest ({ client := none }, s0) ops).2).Key) ∧
    (∀ (b : grafanaCloudBackend) (s : Storage) (op : Operation) (data : ConfigFieldData),
      (b.pathConfigWrite parseRest s op data).1 = .ok none →
      (b.pathConfigWrite parseRest s op data).2.1.client = none ∧
      ∃ c, NewClient (mergedConfig s data).URL (mergedConfig s data).Key = .ok c ∧
        (b.pathConfigWrite parseRest s op data).2.1.getClient
          (b.pathConfigWrite parseRest s op data).2.2 = (.ok c, { client := some c })) ∧
    (∀ (b : grafanaCloudBackend) (s : Storage),
      (b.pathConfigDelete s).1 = .ok none → s.getErr = none →
      (b.pathConfigDelete s).2.1.client = none ∧
      ∃ c, NewClient "" "" = .ok c ∧
        (b.pathConfigDelete s).2.1.getClient (b.pathConfigDelete s).2.2 =
          (.ok c, { client := some c })) := by
  refine ⟨fun s0 ops c hc => ?_, fun b s op data h => ?_, fun b s h hget => ?_⟩
  · have hco := runConfigOps_coherent parseRest ops ({ client := none }, s0)
      (fun c h => by simp at h) c hc
    refine ⟨hco, ?_, ?_⟩
    · simp only [NewClient, Except.ok.injEq] at hco
      rw [← hco]
    · simp only [NewClient, Except.ok.injEq] at hco
      rw [← hco]
  · rcases pathConfigWrite_cases b parseRest s op data with ⟨err, he⟩ | ⟨he, hget, -⟩
    · rw [he] at h
      simp at h
    · rw [he]
      refine ⟨rfl, ?_⟩
      have := getClient_build b.reset
        (Storage.mk s.roles (some (mergedConfig s data)) s.getErr s.putErr s.deleteErr) rfl hget
      simpa [configOrZero] using this
  · unfold grafanaCloudBackend.pathConfigDelete at h ⊢
    cases hd : s.deleteErr with
    | some err => simp [hd] at h
    | none =>
      simp only []
      refine ⟨rfl, ?_⟩
      have := getClient_build b.reset
        (Storage.mk s.roles none s.getErr s.putErr s.deleteErr) rfl hget
      simpa [configOrZero] using this

/-- C17 (witness): the same configuration is written twice with a client lookup after
each write; a lookup after a delete on the sample storage builds from the empty
configuration. -/
theorem client_cache_coherent_witness :
    (∀ c, (runConfigOps acceptRest ({ client := none }, Storage.empty)
        [ConfigOp.write Operation.CreateOperation sampleConfigCreate, ConfigOp.getClient,
         ConfigOp.write Operation.UpdateOperation sampleConfigCreate,
         ConfigOp.getClient]).1.client = some c →
      c.AuthToken = (configOrZero (runConfigOps acceptRest ({ client := none }, Storage.empty)
        [ConfigOp.write Operation.CreateOperation sampleConfigCreate, ConfigOp.getClient,
         ConfigOp.write Operation.UpdateOperation sampleConfigCreate,
         ConfigOp.getClient]).2).Key) ∧
    ((grafanaCloudBackend.pathConfigWrite { client := some sampleClient } acceptRest
        sampleStorage Operation.UpdateOperation
        { organisation := some "acme", key := some "K", url := some "http://x/",
          user := none }).2.1.client = none) ∧
    ((grafanaCloudBackend.pathConfigDelete { client := some sampleClient }
        sampleStorage).2.1.client = none) :=
  ⟨fun c hc => ((client_cache_coherent acceptRest).1 Storage.empty _ c hc).2.2,
   ((client_cache_coherent acceptRest).2.1 { client := some sampleClient } sampleStorage
      Operation.UpdateOperation
      { organisation := some "acme", key := some "K", url := some "http://x/", user := none }
      (by decide)).1,
   ((client_cache_coherent acceptRest).2.2 { client := some sampleClient } sampleStorage
      (by decide) (by decide)).1⟩

/-! ## C18: the retry predicate -/

/-- Dropping leading characters that differ from the first character of a pattern
keeps every occurrence of the pattern. -/
theorem infix_dropWhile (p : Char → Bool) (c : Char) (m : List Char) (hc : p c = false) :
    ∀ s : List Char, (c :: m) <:+: s → (c :: m) <:+: s.dropWhile p := by
  intro s
  induction s with
  | nil => intro h; exact h
  | cons x xs ih =>
    intro h
    by_cases hx : p x = true
    · rw [List.dropWhile_cons_of_pos hx]
      rcases List.infix_cons_iff.mp h with hpre | hin
      · have e := (List.cons_prefix_cons.mp hpre).1
        rw [e, hx] at hc
        exact absurd hc (by decide)
      · exact ih hin
    · rw [List.dropWhile_cons_of_neg hx]
      exact h

/-- Trimming at both ends characters that differ from the first and from the last
character of a pattern neither removes nor adds an occurrence of the pattern. -/
theorem infix_trim_iff (p : Char → Bool) (c d : Char) (m1 m2 s : List Char)
    (hc : p c = false) (hd : p d = false) (hlast : (c :: m1).reverse = d :: m2) :
    (c :: m1) <:+: ((s.dropWhile p).reverse.dropWhile p).reverse ↔ (c :: m1) <:+: s := by
  constructor
  · intro h
    have h1 : ((s.dropWhile p).reverse.dropWhile p).reverse <+: s.dropWhile p := by
      have := List.dropWhile_suffix (l := (s.dropWhile p).reverse) p
      have h2 := List.reverse_prefix.mpr this
      rwa [List.reverse_reverse] at h2
    exact (h.trans h1.isInfix).trans (List.dropWhile_suffix p).isInfix
  · intro h
    have h1 := infix_dropWhile p c m1 hc s h
    have h2 : (d :: m2) <:+: (s.dropWhile p).reverse := by
      rw [← hlast]
      exact List.reverse_infix.mpr h1
    have h3 := infix_dropWhile p d m2 hd _ h2
    have h4 := List.reverse_infix.mpr h3
    rw [← hlast, List.reverse_reverse] at h4
    exact h4

/-- The marker occurs in the trimmed body exactly when it occurs in the body. -/
theorem Contains_TrimSpace (body : String) :
    Contains (TrimSpace body) grafanaStarting = Contains body grafanaStarting := by
  have hdata : grafanaStarting.data =
      'Y' :: "our instance is starting".data := by decide
  have hlast : ('Y' :: "our instance is starting".data).reverse =
      'g' :: "nitrats si ecnatsni ruoY".data := by decide
  have hiff := infix_trim_iff isSpace 'Y' 'g' "our instance is starting".data
    "nitrats si ecnatsni ruoY".data body.data (by decide) (by decide) hlast
  unfold Contains TrimSpace
  rw [hdata]
  exact decide_eq_decide.mpr hiff

/-- The retry predicate holds exactly for status 429 and for a body with the marker. -/
theorem canRetry_true_iff (r : RestyResponse) :
    canRetry r = true ↔ r.StatusCode = 429 ∨ Contains r.Body grafanaStarting = true := by
  simp [canRetry, RestyResponse.String, Contains_TrimSpace]

/-- C18: `canRetry` returns true if and only if the status is 429 or the body contains
"Your instance is starting"; every other response with status 400 or above whose body
lacks the marker is not retried, the request ending after that one attempt, and
`HandleError` turns it into the error carrying the status code and the body. -/
theorem canRetry_iff :
    (∀ r : RestyResponse,
      canRetry r = true ↔ r.StatusCode = 429 ∨ Contains r.Body grafanaStarting = true) ∧
    (∀ (r : RestyResponse) (msg : String) (c : Client) (server : Server) (req : Request),
      400 ≤ r.StatusCode → r.StatusCode ≠ 429 → Contains r.Body grafanaStarting = false →
      server 0 req = .ok r →
      canRetry r = false ∧
      c.Execute server req = (.ok r, 1) ∧
      HandleError (c.remote server req) msg =
        some (msg ++ ". Status code " ++ toString r.StatusCode ++ ", response: " ++ r.Body)) := by
  have hiff := canRetry_true_iff
  refine ⟨hiff, fun r msg c server req h400 h429 hbody hsrv => ?_⟩
  have hno : canRetry r = false := by
    cases hcr : canRetry r with
    | false => rfl
    | true =>
      rcases (hiff r).mp hcr with h | h
      · exact absurd h h429
      · rw [hbody] at h
        exact absurd h (by decide)
  have hex : c.Execute server req = (.ok r, 1) := by
    unfold Client.Execute
    cases c.RetryCount with
    | zero => simp [backoffLoop, hsrv]
    | succ n => simp [backoffLoop, hsrv, needsRetry, hno]
  refine ⟨hno, hex, ?_⟩
  have hgt : r.StatusCode > 399 := by omega
  simp [Client.remote, hex, HandleError, RestyResponse.IsError, hgt, HttpError]

/-- C18 (witness): a 500 response with an unrelated body, through the sample client. -/
theorem canRetry_iff_witness :
    canRetry { noRawResponse with StatusCode := 500, Body := "boom" } = false ∧
    sampleClient.Execute
        (fun _ _ => .ok { noRawResponse with StatusCode := 500, Body := "boom" })
        sampleCreateRequest =
      (.ok { noRawResponse with StatusCode := 500, Body := "boom" }, 1) ∧
    HandleError (sampleClient.remote
        (fun _ _ => .ok { noRawResponse with StatusCode := 500, Body := "boom" })
        sampleCreateRequest) "failed" =
      some ("failed" ++ ". Status code " ++
        toString ({ noRawResponse with StatusCode := 500, Body := "boom" } :
          RestyResponse).StatusCode ++ ", response: " ++
        ({ noRawResponse with StatusCode := 500, Body := "boom" } : RestyResponse).Body) :=
  canRetry_iff.2 { noRawResponse with StatusCode := 500, Body := "boom" } "failed" sampleClient
    (fun _ _ => .ok { noRawResponse with StatusCode := 500, Body := "boom" })
    sampleCreateRequest (by decide) (by decide) (by decide) rfl

/-! ## C19: the number of attempts -/

/-- The retry loop makes at least one attempt and at most one per remaining retry more. -/
theorem backoffLoop_attempts (operation : Nat → Except GoError RestyResponse) :
    ∀ (remaining attempt : Nat),
      attempt + 1 ≤ (backoffLoop operation remaining attempt).2 ∧
      (backoffLoop operation remaining attempt).2 ≤ attempt + remaining + 1 := by
  intro remaining
  induction remaining with
  | zero => intro attempt; simp [backoffLoop]
  | succ n ih =>
    intro attempt
    unfold backoffLoop
    split
    · have := ih (attempt + 1)
      omega
    · simp only
      omega

/-- C19 (counterexample): the client `NewClient` configures has retry count 6, and
against a remote that answers every attempt with HTTP 429 a single create request is
attempted 7 times. -/
theorem always_busy_seven_attempts :
    NewClient "http://x/" "K" = .ok sampleClient ∧
    sampleClient.RetryCount = 6 ∧
    sampleClient.attempts alwaysBusy sampleCreateRequest = 7 ∧
    ¬ (∀ (server : Server) (req : Request), sampleClient.attempts server req ≤ 6) := by
  refine ⟨by decide, rfl, by decide, fun h => ?_⟩
  exact absurd (h alwaysBusy sampleCreateRequest) (by decide)

/-- C19 (amended): under the retry policy configured by `NewClient`, a single request
(of createKey or deleteKey alike) is attempted at least once and at most 7 times in
total, the first attempt and up to 6 retries, for every sequence of remote responses;
and when the remote answers HTTP 429 on the first two attempts and 200, with a body
without the marker, on the third, the create request succeeds with the decoded key
after exactly 3 attempts, that is 2 retries. -/
theorem attempts_at_most_seven (baseURL apiKey : String) (c : Client)
    (hc : NewClient baseURL apiKey = .ok c) :
    (∀ (server : Server) (req : Request),
      1 ≤ c.attempts server req ∧ c.attempts server req ≤ 7) ∧
    (∀ (server : Server) (r : CreateAPIKeyInput) (r0 r1 rr : RestyResponse),
      server 0 (Request.mk "POST" c.BaseURL c.AuthToken
        ("orgs/" ++ r.Organisation ++ "/api-keys") (some r)) = .ok r0 →
      r0.StatusCode = 429 →
      server 1 (Request.mk "POST" c.BaseURL c.AuthToken
        ("orgs/" ++ r.Organisation ++ "/api-keys") (some r)) = .ok r1 →
      r1.StatusCode = 429 →
      server 2 (Request.mk "POST" c.BaseURL c.AuthToken
        ("orgs/" ++ r.Organisation ++ "/api-keys") (some r)) = .ok rr →
      rr.StatusCode = 200 → Contains rr.Body grafanaStarting = false →
      c.CreateAPIKey (c.remote server) r =
        (.ok rr.Result, [Request.mk "POST" c.BaseURL c.AuthToken
          ("orgs/" ++ r.Organisation ++ "/api-keys") (some r)]) ∧
      c.attempts server (Request.mk "POST" c.BaseURL c.AuthToken
        ("orgs/" ++ r.Organisation ++ "/api-keys") (some r)) = 3) := by
  have hcount : c.RetryCount = 6 := by
    simp only [NewClient, Except.ok.injEq] at hc
    rw [← hc]
  constructor
  · intro server req
    have := backoffLoop_attempts (fun n => server n req) c.RetryCount 0
    unfold Client.attempts Client.Execute
    rw [hcount] at this ⊢
    omega
  · intro server r r0 r1 rr h0 s0 h1 s1 h2 s2 hbody
    have c0 : canRetry r0 = true := (canRetry_true_iff r0).mpr (Or.inl s0)
    have c1 : canRetry r1 = true := (canRetry_true_iff r1).mpr (Or.inl s1)
    have c2 : canRetry rr = false := by
      cases hcr : canRetry rr with
      | false => rfl
      | true =>
        rcases (canRetry_true_iff rr).mp hcr with h | h
        · rw [s2] at h
          exact absurd h (by decide)
        · rw [hbody] at h
          exact absurd h (by decide)
    have hex : c.Execute server (Request.mk "POST" c.BaseURL c.AuthToken
        ("orgs/" ++ r.Organisation ++ "/api-keys") (some r)) = (.ok rr, 3) := by
      unfold Client.Execute
      rw [hcount]
      simp [backoffLoop, h0, h1, h2, needsRetry, c0, c1, c2]
    refine ⟨?_, by simp [Client.attempts, hex]⟩
    have hst : ¬ rr.StatusCode > 399 := by omega
    simp [Client.CreateAPIKey, Client.remote, hex, HandleError, RestyResponse.IsError, hst]

/-- C19 (witness): the sample client against the remote that is busy twice. -/
theorem attempts_at_most_seven_witness :
    (1 ≤ sampleClient.attempts busyTwice sampleCreateRequest ∧
      sampleClient.attempts busyTwice sampleCreateRequest ≤ 7) ∧
    sampleClient.attempts alwaysBusy sampleCreateRequest ≤ 7 :=
  ⟨(attempts_at_most_seven "http://x/" "K" sampleClient (by decide)).1 busyTwice
      sampleCreateRequest,
   ((attempts_at_most_seven "http://x/" "K" sampleClient (by decide)).1 alwaysBusy
      sampleCreateRequest).2⟩

/-- The scenario of two busy answers: the key is created on the third attempt. -/
theorem busy_twice_then_created :
    sampleClient.CreateAPIKey (sampleClient.remote busyTwice)
        { Name := "k", Role := "Viewer", Organisation := "acme" } =
      (.ok { ID := 1, Name := "k", Role := "Viewer", Token := "glc_token", Expiration := "" },
        [sampleCreateRequest]) ∧
    sampleClient.attempts busyTwice sampleCreateRequest = 3 := by
  decide

/-! ## C20: negative ttl and max_ttl -/

/-- A whole quotient is its own rounding. -/
theorem roundHalfEven_mul (a d : Nat) (hd : 0 < d) : roundHalfEven (a * d) d = a := by
  unfold roundHalfEven
  have h1 : a * d % d = 0 := Nat.mul_mod_left a d
  have h2 : a * d / d = a := Nat.mul_div_cancel a hd
  simp [h1, h2, hd]

/-- Rounding does not pass a whole number the quotient does not pass. -/
theorem roundHalfEven_le (a d c : Nat) (hd : 0 < d) (h : a ≤ c * d) : roundHalfEven a d ≤ c := by
  have hq : a / d ≤ c := Nat.div_le_of_le_mul (by rw [Nat.mul_comm]; exact h)
  have key : 0 < a % d → a / d + 1 ≤ c := by
    intro hr
    by_contra hc
    have hqc : a / d = c := by omega
    have hdm := Nat.div_add_mod a d
    rw [hqc, Nat.mul_comm] at hdm
    omega
  unfold roundHalfEven
  split
  · exact hq
  · split
    · exact key (by omega)
    · split
      · exact hq
      · exact key (by omega)

/-- A value below `2^50` keeps at least three binary places. -/
theorem mantissaShift_ge_three (n d fuel : Nat) (h : 4 * n < d * 2 ^ 52) :
    3 ≤ mantissaShift n d (fuel + 3) := by
  have h1 : ¬ d * 2 ^ 52 ≤ n := by omega
  have h2 : ¬ d * 2 ^ 52 ≤ 2 * n := by omega
  have h3 : ¬ d * 2 ^ 52 ≤ 2 * (2 * n) := by omega
  simp only [mantissaShift, h1, h2, h3, if_false]
  omega

/-- The fraction returned by the rounding has a positive denominator. -/
theorem float64Round_pos (n d : Nat) : 0 < (float64Round n d).2 := by
  unfold float64Round
  split
  · simp
  · split
    · simp
    · simp

/-- A value of at most 1 rounds to at most 1. -/
theorem float64Round_le_one (n d : Nat) (hd : 0 < d) (h : n ≤ d) :
    (float64Round n d).1 ≤ (float64Round n d).2 := by
  unfold float64Round
  split
  · simp
  · have hlt : n < d * 2 ^ 53 := by
      have : d ≤ d * 2 ^ 53 := Nat.le_mul_of_pos_right d (by positivity)
      omega
    simp only [hlt, if_true]
    apply roundHalfEven_le _ _ _ hd
    rw [Nat.mul_comm]
    exact Nat.mul_le_mul_left _ h

/-- A value of at most `m + 7/8`, with `m` below `2^49`, rounds to at most `m + 7/8`. -/
theorem float64Round_le_eighths (n d m : Nat) (hd : 0 < d) (hm : m < 2 ^ 49)
    (h : 8 * n ≤ (8 * m + 7) * d) :
    8 * (float64Round n d).1 ≤ (8 * m + 7) * (float64Round n d).2 := by
  have hnd : n < (m + 1) * d := by
    have : (8 * m + 7) * d < 8 * ((m + 1) * d) := by nlinarith
    omega
  have hmd : (m + 1) * d ≤ 2 ^ 49 * d := Nat.mul_le_mul_right d (by omega)
  unfold float64Round
  split
  · simp
  · have hlt : n < d * 2 ^ 53 := by nlinarith
    simp only [hlt, if_true]
    have h4 : 4 * n < d * 2 ^ 52 := by nlinarith
    obtain ⟨j, hj⟩ : ∃ j, mantissaShift n d 1074 = j + 3 := by
      have h3 : 3 ≤ mantissaShift n d 1074 := mantissaShift_ge_three n d 1071 h4
      exact ⟨mantissaShift n d 1074 - 3, by omega⟩
    rw [hj]
    have hr : roundHalfEven (n * 2 ^ (j + 3)) d ≤ (8 * m + 7) * 2 ^ j := by
      apply roundHalfEven_le _ _ _ hd
      have e : n * 2 ^ (j + 3) = 8 * n * 2 ^ j := by ring
      have e2 : (8 * m + 7) * 2 ^ j * d = (8 * m + 7) * d * 2 ^ j := by ring
      rw [e, e2]
      exact Nat.mul_le_mul_right _ h
    have e3 : (8 * m + 7) * 2 ^ (j + 3) = 8 * ((8 * m + 7) * 2 ^ j) := by ring
    rw [e3]
    exact Nat.mul_le_mul_left 8 hr

/-- A value of at most `m + 7/8`, with `m` below `2^49`, rounds to a `float64` whose
whole part is at most `m`. -/
theorem float64Round_floor_le (n d m : Nat) (hd : 0 < d) (hm : m < 2 ^ 49)
    (h : 8 * n ≤ (8 * m + 7) * d) :
    (float64Round n d).1 / (float64Round n d).2 ≤ m := by
  have h8 := float64Round_le_eighths n d m hd hm h
  have hp := float64Round_pos n d
  have hlt : (float64Round n d).1 < (m + 1) * (float64Round n d).2 := by nlinarith
  have := (Nat.div_lt_iff_lt_mul hp).mpr hlt
  omega

/-- A duration of whole seconds converts to that number of seconds: both roundings are
exact. -/
theorem intSeconds_whole (n : Int) (h1 : -9223372036 ≤ n) (h2 : n ≤ 9223372036) :
    Duration.intSeconds (n * 1000000000) = n := by
  have hdiv : Int.tdiv (n * 1000000000) Second = n := by
    show Int.tdiv (n * 1000000000) 1000000000 = n
    exact Int.mul_tdiv_cancel n (by decide)
  have hmod : Int.tmod (n * 1000000000) Second = 0 := by
    show Int.tmod (n * 1000000000) 1000000000 = 0
    exact Int.mul_tmod_left n 1000000000
  have hq : float64Round 0 1000000000 = (0, 1) := by simp [float64Round]
  unfold Duration.intSeconds
  simp only [hdiv, hmod, Int.natAbs_zero, hq, Nat.mul_one, Nat.add_zero]
  by_cases hz : n = 0
  · subst hz
    simp [float64Round]
  · have hne : n.natAbs ≠ 0 := by simpa using hz
    have hlt : n.natAbs < 1 * 2 ^ 53 := by omega
    have hval : (float64Round n.natAbs 1).1 / (float64Round n.natAbs 1).2 = n.natAbs := by
      unfold float64Round
      simp only [hne, hlt, if_true, if_false]
      have e : roundHalfEven (n.natAbs * 2 ^ mantissaShift n.natAbs 1 1074) 1
          = n.natAbs * 2 ^ mantissaShift n.natAbs 1 1074 := by
        have := roundHalfEven_mul (n.natAbs * 2 ^ mantissaShift n.natAbs 1 1074) 1 (by decide)
        simpa using this
      rw [e]
      exact Nat.mul_div_cancel _ (by positivity)
    rw [hval]
    have hs : Int.sign (n * 1000000000) = Int.sign n := by
      have h9 : Int.sign (1000000000 : Int) = 1 := by decide
      rw [Int.sign_mul, h9, Int.mul_one]
    rw [hs]
    exact Int.sign_mul_natAbs n

/-- The seconds of a duration, rounded in `float64` and truncated, do not exceed the
largest whole number of seconds a duration holds. -/
theorem intSeconds_le (d : Int) (h : d < 9223372036854775808) :
    Duration.intSeconds d ≤ 9223372036 := by
  by_cases hd : d ≤ 0
  · unfold Duration.intSeconds
    have hs : Int.sign d ≤ 0 := by
      rcases lt_or_eq_of_le hd with hlt | heq
      · rw [Int.sign_eq_neg_one_of_neg hlt]
        decide
      · rw [heq]
        decide
    exact le_trans (Int.mul_nonpos_of_nonpos_of_nonneg hs (Int.natCast_nonneg _)) (by decide)
  · have hpos : 0 < d := by omega
    obtain ⟨D, rfl⟩ : ∃ D : Nat, d = (D : Int) := ⟨d.toNat, by omega⟩
    have hsec : (Int.tdiv (D : Int) Second).natAbs = D / 1000000000 := by
      show (Int.tdiv (D : Int) (1000000000 : Nat)).natAbs = D / 1000000000
      rw [← Int.ofNat_tdiv]
      rfl
    have hnsec : (Int.tmod (D : Int) Second).natAbs = D % 1000000000 := by
      show (Int.tmod (D : Int) (1000000000 : Nat)).natAbs = D % 1000000000
      rw [← Int.ofNat_tmod]
      rfl
    unfold Duration.intSeconds
    simp only [hsec, hnsec, Int.sign_eq_one_of_pos hpos, Int.one_mul]
    have hD : D < 9223372036854775808 := by exact_mod_cast h
    have hqp := float64Round_pos (D % 1000000000) 1000000000
    have hq1 := float64Round_le_one (D % 1000000000) 1000000000 (by decide)
      (Nat.le_of_lt (Nat.mod_lt _ (by decide)))
    have hkey : 8 * (D / 1000000000 * (float64Round (D % 1000000000) 1000000000).2
          + (float64Round (D % 1000000000) 1000000000).1)
        ≤ (8 * 9223372036 + 7) * (float64Round (D % 1000000000) 1000000000).2 := by
      by_cases hc : D / 1000000000 ≤ 9223372035
      · have := Nat.mul_le_mul_right (float64Round (D % 1000000000) 1000000000).2 hc
        nlinarith
      · have hsecv : D / 1000000000 = 9223372036 := by omega
        have hns : 8 * (D % 1000000000) ≤ (8 * 0 + 7) * 1000000000 := by omega
        have h8 := float64Round_le_eighths (D % 1000000000) 1000000000 0 (by decide)
          (by decide) hns
        rw [hsecv]
        omega
    have := float64Round_floor_le _ _ 9223372036 hqp (by decide) hkey
    exact_mod_cast this

/-- A duration field the host accepts is handed over as whole seconds between 0 and the
largest whole number of seconds a duration holds. -/
theorem parseDurationSecond_ok (v n : Int) (h : parseDurationSecond v = .ok n) :
    0 ≤ n ∧ n ≤ 9223372036 := by
  unfold parseDurationSecond at h
  simp only at h
  split at h
  · simp at h
  · rename_i hneg
    simp only [Except.ok.injEq] at h
    have hlt : secondsToDuration v < 9223372036854775808 := by
      show (v * 1000000000 + 9223372036854775808) % 18446744073709551616
        - 9223372036854775808 < 9223372036854775808
      omega
    rw [← h]
    exact ⟨Int.not_lt.mp hneg, intSeconds_le _ hlt⟩

/-- A negative number of seconds within the range of a duration is refused. -/
theorem parseDurationSecond_negative (v : Int) (h1 : -9223372036 ≤ v) (h2 : v < 0) :
    ∃ err, parseDurationSecond v = .error err := by
  have e : secondsToDuration v = (v * 1000000000 : Int) :=
    secondsToDuration_exact v h1 (by omega)
  have hneg : Duration.intSeconds (secondsToDuration v) < 0 := by
    rw [e, intSeconds_whole v h1 (by omega)]
    exact h2
  unfold parseDurationSecond
  simp only [hneg, if_true]
  exact ⟨_, rfl⟩

/-- A duration field that passes validation carries a duration in range. -/
theorem validateDuration_ok (field : String) (raw parsed : Option Int)
    (h : validateDuration field raw = .ok parsed) :
    ∀ t, parsed = some t → 0 ≤ t ∧ t ≤ 9223372036 := by
  intro t ht
  subst ht
  cases raw with
  | none => simp [validateDuration] at h
  | some v =>
    simp only [validateDuration] at h
    split at h
    · simp at h
    · rename_i n hn
      simp only [Except.ok.injEq, Option.some.injEq] at h
      subst h
      exact parseDurationSecond_ok v n hn

/-- A negative duration within the range of a duration fails validation. -/
theorem validateDuration_negative (field : String) (v : Int) (h1 : -9223372036 ≤ v)
    (h2 : v < 0) : ∃ err, validateDuration field (some v) = .error err := by
  obtain ⟨err, he⟩ := parseDurationSecond_negative v h1 h2
  simp only [validateDuration, he]
  exact ⟨_, rfl⟩

/-- The fields that pass validation carry durations in range. -/
theorem validateRoleFields_ok (maxTTLFirst : Bool) (raw d : RoleFieldData)
    (h : validateRoleFields maxTTLFirst raw = .ok d) :
    (∀ t, d.ttl = some t → 0 ≤ t ∧ t ≤ 9223372036) ∧
    (∀ t, d.max_ttl = some t → 0 ≤ t ∧ t ≤ 9223372036) := by
  unfold validateRoleFields at h
  split at h
  · rename_i ttl maxTTL httl hmax
    simp only [Except.ok.injEq] at h
    subst h
    exact ⟨validateDuration_ok _ _ _ httl, validateDuration_ok _ _ _ hmax⟩
  · simp at h
  · simp at h
  · simp at h

/-- Validation fails as soon as one of the two duration fields fails, whichever is
visited first. -/
theorem validateRoleFields_error (maxTTLFirst : Bool) (raw : RoleFieldData)
    (h : (∃ err, validateDuration "ttl" raw.ttl = .error err) ∨
      (∃ err, validateDuration "max_ttl" raw.max_ttl = .error err)) :
    ∃ err, validateRoleFields maxTTLFirst raw = .error err := by
  unfold validateRoleFields
  split
  · rename_i ttl maxTTL httl hmax
    rcases h with ⟨err, he⟩ | ⟨err, he⟩
    · rw [httl] at he
      simp at he
    · rw [hmax] at he
      simp at he
  · exact ⟨_, rfl⟩
  · exact ⟨_, rfl⟩
  · exact ⟨_, rfl⟩

/-- A role write changes the storage only when it succeeds. -/
theorem pathRolesWrite_unchanged_or_ok (s : Storage) (op : Operation) (d : RoleFieldData) :
    (pathRolesWrite s op d).2 = s ∨ (pathRolesWrite s op d).1 = .ok none := by
  have key : ∀ (c : Bool) (name : String) (r0 : grafanaCloudRoleEntry),
      (pathRolesWriteTTL s c name d r0).2 = s ∨ (pathRolesWriteTTL s c name d r0).1 = .ok none := by
    intro c name r0
    unfold pathRolesWriteTTL
    simp only
    split
    · exact Or.inl rfl
    · split
      · exact Or.inl rfl
      · exact Or.inr rfl
  unfold pathRolesWrite
  split
  · exact Or.inl rfl
  · split
    · exact Or.inl rfl
    · simp only
      split
      · split
        · exact key _ _ _
        · exact Or.inl rfl
      · split
        · exact Or.inl rfl
        · exact key _ _ _

/-- A stored entry found by a lookup is an element of the list. -/
theorem lookup_mem {β : Type} (l : List (String × β)) (k : String) (v : β)
    (h : l.lookup k = some v) : (k, v) ∈ l := by
  induction l with
  | nil => simp at h
  | cons x xs ih =>
    obtain ⟨a, w⟩ := x
    by_cases hk : k = a
    · subst hk
      simp [List.lookup_cons] at h
      simp [h]
    · have hb : (k == a) = false := by simpa using hk
      simp only [List.lookup_cons, hb] at h
      exact List.mem_cons_of_mem _ (ih h)

/-- Merging validated fields into an entry with non-negative bounds gives non-negative
bounds. -/
theorem mergeTTLs_nonneg (c : Bool) (d : RoleFieldData) (r : grafanaCloudRoleEntry)
    (hT : ∀ t, d.ttl = some t → 0 ≤ t ∧ t ≤ 9223372036)
    (hM : ∀ t, d.max_ttl = some t → 0 ≤ t ∧ t ≤ 9223372036)
    (hr : 0 ≤ r.TTL ∧ 0 ≤ r.MaxTTL) :
    0 ≤ (mergeTTLs c d r).TTL ∧ 0 ≤ (mergeTTLs c d r).MaxTTL := by
  have hz : secondsToDuration 0 = 0 := by decide
  have hpos : ∀ t : Int, 0 ≤ t ∧ t ≤ 9223372036 → 0 ≤ secondsToDuration t := by
    intro t ht
    have e : secondsToDuration t = (t * 1000000000 : Int) :=
      secondsToDuration_exact t (by omega) ht.2
    have hge : (0 : Int) ≤ (t * 1000000000 : Int) := by omega
    rw [e]
    exact hge
  unfold mergeTTLs
  cases httl : d.ttl with
  | none =>
    cases hmax : d.max_ttl with
    | none => cases c <;> simp [hz, hr.1, hr.2]
    | some m => cases c <;> simp [hz, hr.1, hpos m (hM m hmax)]
  | some t0 =>
    cases hmax : d.max_ttl with
    | none => cases c <;> simp [hz, hr.2, hpos t0 (hT t0 httl)]
    | some m => cases c <;> simp [hpos t0 (hT t0 httl), hpos m (hM m hmax)]

/-- A request through the host handler keeps every stored ttl and max_ttl non-negative. -/
theorem RoleRequest.apply_nonneg (s : Storage) (rq : RoleRequest)
    (h : ∀ kv ∈ s.roles, 0 ≤ kv.2.TTL ∧ 0 ≤ kv.2.MaxTTL) :
    ∀ kv ∈ (rq.apply s).roles, 0 ≤ kv.2.TTL ∧ 0 ≤ kv.2.MaxTTL := by
  cases rq with
  | write maxTTLFirst op raw =>
    simp only [RoleRequest.apply, handleRoleWrite]
    split
    · exact h
    · rename_i d hd
      obtain ⟨hT, hM⟩ := validateRoleFields_ok maxTTLFirst raw d hd
      rcases pathRolesWrite_unchanged_or_ok s op d with hs | hok
      · rw [hs]
        exact h
      · obtain ⟨name, -, -, -, hset⟩ := pathRolesWrite_ok s op d hok
        have hold : 0 ≤ ((s.roles.lookup name).getD
            { GrafanaCloudRole := "", TTL := 0, MaxTTL := 0 }).TTL ∧
            0 ≤ ((s.roles.lookup name).getD
            { GrafanaCloudRole := "", TTL := 0, MaxTTL := 0 }).MaxTTL := by
          cases hl : s.roles.lookup name with
          | none => simp
          | some old => exact h (name, old) (lookup_mem _ _ _ hl)
        have hmerged := mergeTTLs_nonneg (op == Operation.CreateOperation) d
          { (s.roles.lookup name).getD { GrafanaCloudRole := "", TTL := 0, MaxTTL := 0 } with
            GrafanaCloudRole := d.gc_role.getD
              ((s.roles.lookup name).getD
                { GrafanaCloudRole := "", TTL := 0, MaxTTL := 0 }).GrafanaCloudRole }
          hT hM hold
        unfold setRole at hset
        split at hset
        · simp at hset
        · simp only [Except.ok.injEq] at hset
          rw [← hset]
          intro kv hkv
          simp only [List.mem_cons] at hkv
          rcases hkv with e | hmem
          · rw [e]
            exact hmerged
          · exact h kv (List.mem_of_mem_filter hmem)
  | delete d =>
    simp only [RoleRequest.apply, pathRolesDelete]
    split
    · exact h
    · intro kv hkv
      exact h kv (List.mem_of_mem_filter hkv)

/-- C20 (counterexample): a create through the host request handler that supplies the
negative ttl -9223372037s is not rejected. Its nanosecond count overflows `int64` to
9223372036709551616ns before the sign is tested, so the host hands 9223372036 to the
handler, the write succeeds, and the role is stored with ttl 9223372036s. -/
theorem negative_ttl_overflow_accepted :
    sampleOverflowingTTL.ttl = some (-9223372037) ∧
    secondsToDuration (-9223372037) = 9223372036709551616 ∧
    parseDurationSecond (-9223372037) = .ok 9223372036 ∧
    handleRoleWrite false Storage.empty Operation.CreateOperation sampleOverflowingTTL =
      (.ok none, { Storage.empty with
        roles := [("r", { GrafanaCloudRole := "Viewer", TTL := 9223372036000000000,
                          MaxTTL := 0 })] }) := by
  decide

/-- C20 (amended): a role write received through the host request handler that supplies a
negative ttl or a negative max_ttl of no less than -9223372036 seconds is answered with
an error response and stores nothing, in whichever order the two fields are validated;
and in every storage reached from the empty one by role writes and deletes through the
host request handler, whatever they supply, every persisted role has ttl ≥ 0 and
max_ttl ≥ 0. -/
theorem negative_ttl_rejected :
    (∀ (maxTTLFirst : Bool) (s : Storage) (op : Operation) (raw : RoleFieldData),
      ((∃ t, raw.ttl = some t ∧ -9223372036 ≤ t ∧ t < 0) ∨
       (∃ m, raw.max_ttl = some m ∧ -9223372036 ≤ m ∧ m < 0)) →
      (handleRoleWrite maxTTLFirst s op raw).1.isErrorResponse = true ∧
      (handleRoleWrite maxTTLFirst s op raw).2 = s) ∧
    (∀ (reqs : List RoleRequest), ∀ kv ∈ (runRoleRequests Storage.empty reqs).roles,
      0 ≤ kv.2.TTL ∧ 0 ≤ kv.2.MaxTTL) := by
  constructor
  · intro maxTTLFirst s op raw h
    have hv : ∃ err, validateRoleFields maxTTLFirst raw = .error err := by
      apply validateRoleFields_error
      rcases h with ⟨t, ht, h1, h2⟩ | ⟨m, hm, h1, h2⟩
      · left
        rw [ht]
        exact validateDuration_negative "ttl" t h1 h2
      · right
        rw [hm]
        exact validateDuration_negative "max_ttl" m h1 h2
    obtain ⟨err, he⟩ := hv
    simp [handleRoleWrite, he, Result.isErrorResponse, Response.IsError, ErrorResponse]
  · intro reqs
    have gen : ∀ (l : List RoleRequest) (s : Storage),
        (∀ kv ∈ s.roles, 0 ≤ kv.2.TTL ∧ 0 ≤ kv.2.MaxTTL) →
        ∀ kv ∈ (runRoleRequests s l).roles, 0 ≤ kv.2.TTL ∧ 0 ≤ kv.2.MaxTTL := by
      intro l
      induction l with
      | nil => intro s h; exact h
      | cons rq rest ih => intro s h; exact ih _ (RoleRequest.apply_nonneg s rq h)
    exact gen reqs Storage.empty (fun kv hkv => by simp [Storage.empty] at hkv)

/-- C20 (witness): the writes with ttl -1s and with max_ttl -1s on the empty storage. -/
theorem negative_ttl_rejected_witness :
    ((handleRoleWrite false Storage.empty Operation.CreateOperation
        sampleNegativeTTL).1.isErrorResponse = true ∧
      (handleRoleWrite false Storage.empty Operation.CreateOperation sampleNegativeTTL).2
        = Storage.empty) ∧
    ((handleRoleWrite true Storage.empty Operation.CreateOperation
        sampleNegativeMaxTTL).1.isErrorResponse = true ∧
      (handleRoleWrite true Storage.empty Operation.CreateOperation sampleNegativeMaxTTL).2
        = Storage.empty) :=
  ⟨negative_ttl_rejected.1 false Storage.empty Operation.CreateOperation sampleNegativeTTL
      (Or.inl ⟨-1, rfl, by decide, by decide⟩),
   negative_ttl_rejected.1 true Storage.empty Operation.CreateOperation sampleNegativeMaxTTL
      (Or.inr ⟨-1, rfl, by decide, by decide⟩)⟩

/-- The answer of the host to ttl -1s names the input, the field and the refused number
of seconds; when ttl and max_ttl are both refused, the field visited first is the one
reported. -/
theorem handleRoleWrite_negative_message :
    handleRoleWrite false Storage.empty Operation.CreateOperation sampleNegativeTTL =
      (.ok (some (ErrorResponse ("Field validation failed: error converting input -1 for " ++
        "field \"ttl\": cannot provide negative value '-1'"))), Storage.empty) ∧
    handleRoleWrite false Storage.empty Operation.CreateOperation sampleBothNegative =
      (.ok (some (ErrorResponse ("Field validation failed: error converting input -1 for " ++
        "field \"ttl\": cannot provide negative value '-1'"))), Storage.empty) ∧
    handleRoleWrite true Storage.empty Operation.CreateOperation sampleBothNegative =
      (.ok (some (ErrorResponse ("Field validation failed: error converting input -2 for " ++
        "field \"max_ttl\": cannot provide negative value '-2'"))), Storage.empty) := by
  decide

/-- A positive ttl of 18446744073s overflows `int64` to -709551616ns, less than a second
below zero: its whole seconds are 0, the host accepts it and the role is stored with
ttl 0. -/
theorem handleRoleWrite_wrapping_ttl_stored_as_zero :
    secondsToDuration 18446744073 = -709551616 ∧
    parseDurationSecond 18446744073 = .ok 0 ∧
    handleRoleWrite false Storage.empty Operation.CreateOperation sampleWrappingTTL =
      (.ok none, { Storage.empty with
        roles := [("r", { GrafanaCloudRole := "Viewer", TTL := 0, MaxTTL := 0 })] }) := by
  decide

/-- The conversion of a duration to whole seconds rounds in `float64` before it
truncates: 8589934592.999999488s is handed on as 8589934593, 4294967296.999999488s as
4294967296. -/
theorem intSeconds_rounds :
    Duration.intSeconds 8589934592999999488 = 8589934593 ∧
    Duration.intSeconds (-8589934592999999488) = -8589934593 ∧
    Duration.intSeconds 4294967296999999488 = 4294967296 ∧
    Duration.intSeconds 9223372036854775807 = 9223372036 := by
  decide

/-- The handler of role writes has no check of its own on the sign: called with ttl -1s
and max_ttl 3600s it stores the role. -/
theorem pathRolesWrite_stores_negative_ttl :
    pathRolesWrite Storage.empty Operation.CreateOperation sampleNegativeTTL =
      (.ok none, { Storage.empty with
        roles := [("r", { GrafanaCloudRole := "Viewer", TTL := -1000000000,
                          MaxTTL := 3600000000000 })] }) := by
  decide

/-! ## C21: concurrent callers of `getClient` on an empty cache -/

/-- The part of `getClient` under the exclusive lock calls `NewClient` at most once. -/
theorem getClientLocked_constructions_le (b : grafanaCloudBackend) (s : Storage) :
    (b.getClientLocked s).2.2 ≤ 1 := by
  unfold grafanaCloudBackend.getClientLocked
  split
  · simp
  · dsimp only
    split <;> simp

/-- On an empty cache `getClient` is its read of the cache followed by the part under the
exclusive lock. -/
theorem getClient_eq_locked (b : grafanaCloudBackend) (s : Storage) (hb : b.client = none) :
    b.getClient s = ((b.getClientLocked s).1, (b.getClientLocked s).2.1) := by
  unfold grafanaCloudBackend.getClient grafanaCloudBackend.getClientLocked
  rw [hb]
  simp only
  split
  · rfl
  · split <;> rfl

/-- When the part under the exclusive lock builds a client from one backend, it builds the
same client from any other, whatever their caches hold. -/
theorem getClientLocked_ok_any (b b2 : grafanaCloudBackend) (s : Storage) (c : Client)
    (h : (b.getClientLocked s).1 = .ok c) :
    b2.getClientLocked s = (.ok c, { client := some c }, 1) := by
  unfold grafanaCloudBackend.getClientLocked at h ⊢
  split at h
  · simp at h
  · dsimp only at h ⊢
    split at h
    · simp at h
    · rename_i hnew
      simp only [Except.ok.injEq] at h
      subst h
      simp only [hnew]

/-- The part under the exclusive lock leaves a client in the cache only when it returns
that client. -/
theorem getClientLocked_cache (b : grafanaCloudBackend) (s : Storage) (c : Client)
    (h : (b.getClientLocked s).2.1.client = some c) :
    (b.getClientLocked s).1 = .ok c ∨ b.client = some c := by
  unfold grafanaCloudBackend.getClientLocked at h ⊢
  split
  · right
    rename_i hget
    simpa [hget] using h
  · rename_i found hget
    simp only [hget] at h
    dsimp only
    split
    · rename_i hnew
      simp [hnew] at h
    · rename_i c2 hnew
      simp only [hnew, Option.some.injEq] at h
      left
      rw [h]

/-- A step of a caller changes no other caller and adds none. -/
theorem step_length (s : Storage) (st : ConcurrentState) (i : Nat) :
    (st.step s i).callers.length = st.callers.length := by
  unfold ConcurrentState.step
  split
  · split <;> simp
  · simp
  · rfl

/-- A step keeps the number of calls of `NewClient` within the number of callers that
have returned. -/
theorem step_constructions (s : Storage) (st : ConcurrentState) (i : Nat)
    (h : st.constructions ≤ st.callers.countP CallerState.isDone) :
    (st.step s i).constructions ≤ (st.step s i).callers.countP CallerState.isDone := by
  unfold ConcurrentState.step
  split
  · rename_i hi
    obtain ⟨hlt, hget⟩ := List.getElem?_eq_some_iff.mp hi
    split
    · simp only [List.countP_set _ _ _ _ hlt, hget, CallerState.isDone]
      simp
      omega
    · simp only [List.countP_set _ _ _ _ hlt, hget, CallerState.isDone]
      simpa using h
  · rename_i hi
    obtain ⟨hlt, hget⟩ := List.getElem?_eq_some_iff.mp hi
    have hle := getClientLocked_constructions_le st.backend s
    simp only [List.countP_set _ _ _ _ hlt, hget, CallerState.isDone]
    simp
    omega
  · exact h

/-- A step keeps every client in the cache, and every client a caller has returned, equal
to the client the part under the exclusive lock builds from the storage. -/
theorem step_clients (s : Storage) (st : ConcurrentState) (i : Nat)
    (hcache : ∀ c, st.backend.client = some c →
      ∀ b : grafanaCloudBackend, b.getClientLocked s = (.ok c, { client := some c }, 1))
    (hdone : ∀ c, CallerState.done (.ok c) ∈ st.callers →
      ∀ b : grafanaCloudBackend, b.getClientLocked s = (.ok c, { client := some c }, 1)) :
    (∀ c, (st.step s i).backend.client = some c →
      ∀ b : grafanaCloudBackend, b.getClientLocked s = (.ok c, { client := some c }, 1)) ∧
    (∀ c, CallerState.done (.ok c) ∈ (st.step s i).callers →
      ∀ b : grafanaCloudBackend, b.getClientLocked s = (.ok c, { client := some c }, 1)) := by
  unfold ConcurrentState.step
  split
  · split
    · rename_i c0 hc0
      refine ⟨hcache, ?_⟩
      intro c hc
      rcases List.mem_or_eq_of_mem_set hc with hm | he
      · exact hdone c hm
      · simp only [CallerState.done.injEq, Except.ok.injEq] at he
        subst he
        exact hcache _ hc0
    · refine ⟨hcache, ?_⟩
      intro c hc
      rcases List.mem_or_eq_of_mem_set hc with hm | he
      · exact hdone c hm
      · simp at he
  · constructor
    · intro c hc b
      rcases getClientLocked_cache st.backend s c hc with h | h
      · exact getClientLocked_ok_any _ _ s c h
      · exact hcache c h b
    · intro c hc b
      rcases List.mem_or_eq_of_mem_set hc with hm | he
      · exact hdone c hm b
      · simp only [CallerState.done.injEq] at he
        exact getClientLocked_ok_any _ _ s c he.symm
  · exact ⟨hcache, hdone⟩

/-- Along any schedule from callers that all start on an empty cache: the number of
callers stays, the calls of `NewClient` stay within the number of callers that have
returned, and every client cached or returned is the client built from the storage. -/
theorem runSchedule_invariant (s : Storage) (n : Nat) (schedule : List Nat) :
    (runSchedule s (ConcurrentState.init n) schedule).callers.length = n ∧
    (runSchedule s (ConcurrentState.init n) schedule).constructions ≤
      (runSchedule s (ConcurrentState.init n) schedule).callers.countP CallerState.isDone ∧
    (∀ c, (runSchedule s (ConcurrentState.init n) schedule).backend.client = some c →
      ∀ b : grafanaCloudBackend, b.getClientLocked s = (.ok c, { client := some c }, 1)) ∧
    (∀ c, CallerState.done (.ok c) ∈ (runSchedule s (ConcurrentState.init n) schedule).callers →
      ∀ b : grafanaCloudBackend, b.getClientLocked s = (.ok c, { client := some c }, 1)) := by
  induction schedule using List.reverseRecOn with
  | nil =>
    refine ⟨by simp [runSchedule, ConcurrentState.init], by simp [runSchedule, ConcurrentState.init], ?_, ?_⟩
    · intro c hc
      simp [runSchedule, ConcurrentState.init] at hc
    · intro c hc
      simp [runSchedule, ConcurrentState.init] at hc
  | append_singleton sched i ih =>
    obtain ⟨hlen, hcount, hcache, hdone⟩ := ih
    have hrun : runSchedule s (ConcurrentState.init n) (sched ++ [i]) =
        (runSchedule s (ConcurrentState.init n) sched).step s i := by
      simp [runSchedule, List.foldl_append]
    rw [hrun]
    refine ⟨?_, step_constructions s _ i hcount, step_clients s _ i hcache hdone⟩
    rw [step_length, hlen]

/-- C21 (counterexample): two callers start on an empty cache with a configuration
persisted, and nothing writes, deletes or invalidates. Both read the empty cache under
the read lock before either takes the exclusive lock. Caller 0 then builds and caches a
client; caller 1, taking the exclusive lock after that, does not read the cache again and
calls `NewClient` a second time: two constructions in one epoch. -/
theorem getClient_two_callers_construct_twice :
    runSchedule sampleStorage (ConcurrentState.init 2) [0, 1, 0] =
      { backend := { client := some sampleClient },
        callers := [CallerState.done (.ok sampleClient), CallerState.waitLock],
        constructions := 1 } ∧
    runSchedule sampleStorage (ConcurrentState.init 2) [0, 1, 0, 1] =
      { backend := { client := some sampleClient },
        callers := [CallerState.done (.ok sampleClient), CallerState.done (.ok sampleClient)],
        constructions := 2 } := by
  decide

/-- C21 (amended): under any interleaving of n concurrent `getClient` callers that all
start on an empty cache within one invalidation epoch, the client is constructed at most
once per caller, hence at most n times. A cached client is the one `getClient` builds
from the storage on an empty cache, and so is every client a caller has returned. A
caller that reads the cache under the read lock after a client has been cached returns
that client and constructs nothing. A caller that acquires the exclusive lock after a
client has been cached does not re-check the cache: it constructs once more and caches
and returns a client equal to the cached one. -/
theorem getClient_constructions_at_most_callers (s : Storage) (n : Nat) (schedule : List Nat)
    (st : ConcurrentState) (hst : st = runSchedule s (ConcurrentState.init n) schedule) :
    st.constructions ≤ n ∧
    (∀ c, st.backend.client = some c →
      grafanaCloudBackend.getClient { client := none } s = (.ok c, { client := some c })) ∧
    (∀ (i : Nat) (c : Client), st.callers[i]? = some (CallerState.done (.ok c)) →
      grafanaCloudBackend.getClient { client := none } s = (.ok c, { client := some c })) ∧
    (∀ (i : Nat) (c : Client), st.backend.client = some c → st.callers[i]? = some CallerState.start →
      st.step s i =
        { backend := st.backend, callers := st.callers.set i (CallerState.done (.ok c)),
          constructions := st.constructions }) ∧
    (∀ (i : Nat) (c : Client), st.backend.client = some c → st.callers[i]? = some CallerState.waitLock →
      st.step s i =
        { backend := st.backend, callers := st.callers.set i (CallerState.done (.ok c)),
          constructions := st.constructions + 1 }) := by
  obtain ⟨hlen, hcount, hcache, hdone⟩ := runSchedule_invariant s n schedule
  rw [← hst] at hlen hcount hcache hdone
  refine ⟨?_, ?_, ?_, ?_, ?_⟩
  · have := List.countP_le_length CallerState.isDone (l := st.callers)
    omega
  · intro c hc
    rw [getClient_eq_locked _ s rfl, hcache c hc]
  · intro i c hi
    obtain ⟨hlt, hget⟩ := List.getElem?_eq_some_iff.mp hi
    have hmem : CallerState.done (.ok c) ∈ st.callers := hget ▸ List.getElem_mem hlt
    rw [getClient_eq_locked _ s rfl, hdone c hmem]
  · intro i c hc hi
    simp only [ConcurrentState.step, hi, hc]
  · intro i c hc hi
    have hb : st.backend = { client := some c } := by
      cases hbk : st.backend
      rw [hbk] at hc
      simpa using hc
    simp only [ConcurrentState.step, hi, hcache c hc, hb]

/-- C21 (witness): after callers 0 and 1 have both read the empty cache and caller 0 has
built the client, the step of caller 1 under the exclusive lock is a second construction
that leaves the cache as it was. -/
theorem getClient_constructions_at_most_callers_witness :
    (runSchedule sampleStorage (ConcurrentState.init 2) [0, 1, 0]).constructions ≤ 2 ∧
    (runSchedule sampleStorage (ConcurrentState.init 2) [0, 1, 0]).step sampleStorage 1 =
      { backend := (runSchedule sampleStorage (ConcurrentState.init 2) [0, 1, 0]).backend,
        callers := (runSchedule sampleStorage (ConcurrentState.init 2) [0, 1, 0]).callers.set 1
          (CallerState.done (.ok sampleClient)),
        constructions :=
          (runSchedule sampleStorage (ConcurrentState.init 2) [0, 1, 0]).constructions + 1 } :=
  ⟨(getClient_constructions_at_most_callers sampleStorage 2 [0, 1, 0] _ rfl).1,
    (getClient_constructions_at_most_callers sampleStorage 2 [0, 1, 0] _ rfl).2.2.2.2
      1 sampleClient (by decide) (by decide)⟩

/-! ## C22: the configuration readers when no configuration is persisted -/

/-- The config read handler when no configuration is persisted: it dereferences the
absent configuration. -/
theorem pathConfigRead_config_absent (s : Storage) (hcfg : getConfig s = .ok none) :
    pathConfigRead s = .panic "invalid memory address or nil pointer dereference" := by
  simp only [pathConfigRead, hcfg]

/-- The revoke handler when no configuration is persisted: the client is built from the
zero configuration, then the absent configuration is dereferenced before the key name is
looked at; nothing is sent to the remote. -/
theorem keyRevoke_config_absent (b : grafanaCloudBackend) (s : Storage) (remote : Remote)
    (secret : Secret) (hcfg : getConfig s = .ok none) :
    (b.keyRevoke s remote secret).1 =
      .panic "invalid memory address or nil pointer dereference" ∧
    (b.keyRevoke s remote secret).2.2 = [] := by
  unfold grafanaCloudBackend.keyRevoke grafanaCloudBackend.getClient NewClient
  simp only [hcfg]
  cases b.client <;> simp

/-- C22 (failing input): with nothing persisted, `getConfig` returns no configuration and
no error; the config read handler then returns neither a response nor an error value but
panics on the nil dereference, and so does the revoke handler for a lease whose metadata
holds the key name, before any request is sent to the remote. -/
theorem config_readers_panic_without_config :
    getConfig Storage.empty = .ok none ∧
    pathConfigRead Storage.empty =
      .panic "invalid memory address or nil pointer dereference" ∧
    sampleLease.InternalData.lookup "name" = some (Value.str "viewer-role_x") ∧
    (sampleBackend.keyRevoke Storage.empty sampleRemote sampleLease).1 =
      .panic "invalid memory address or nil pointer dereference" ∧
    (sampleBackend.keyRevoke Storage.empty sampleRemote sampleLease).2.2 = [] := by
  decide

end secretsengine
